import Mathlib

/-!
Verification of the Daggerheart character creator
(`daggerheart_character_creator.py`).

The Python module is shallowly embedded:
* Python `dict`s become insertion-ordered association lists;
* raised exceptions (`KeyError`, `ValueError`) become `Option`/`none`;
* the ambient global random generator becomes an explicit oracle
  `g : Nat -> Nat` together with a threaded call counter, so a theorem
  quantified over `g` holds for every outcome of the random source;
* the domain-card compendium (`domain_cards.json`, external data not in
  the repository sources) becomes an explicit `List DomainCard`
  parameter of every function that reads it.
-/

/-- Python `str.lower` (ASCII behaviour, which covers all keys used). -/
def pyLower (s : String) : String :=
  ⟨s.data.map Char.toLower⟩

/-- Helper for `pyTitle`: the boolean records whether the previous
character was cased (alphabetic), mirroring CPython `str.title`. -/
def pyTitleAux : Bool → List Char → List Char
  | _, [] => []
  | prevCased, ch :: t =>
    let cased := ch.isAlpha
    let ch2 := if cased then (if prevCased then ch.toLower else ch.toUpper) else ch
    ch2 :: pyTitleAux cased t

/-- Python `str.title`: uppercase every alphabetic character that follows
a non-alphabetic one, lowercase the remaining alphabetic characters. -/
def pyTitle (s : String) : String :=
  ⟨pyTitleAux false s.data⟩

/-- Fuel-driven core of Python `str.count` for a non-empty needle:
scan left to right, counting non-overlapping occurrences.  The fuel is
the length of the scanned text, which bounds the recursion because each
step consumes at least one character. -/
def pyCountAux (sub : List Char) : Nat → List Char → Nat
  | 0, _ => 0
  | _ + 1, [] => 0
  | fuel + 1, c :: t =>
    if sub.isPrefixOf (c :: t) then 1 + pyCountAux sub fuel ((c :: t).drop sub.length)
    else pyCountAux sub fuel t

/-- Python `str.count`: number of non-overlapping occurrences of `sub`
in `s` (an empty needle matches at every position, giving `len+1`). -/
def pyCount (s sub : String) : Nat :=
  if sub.data.length = 0 then s.data.length + 1
  else pyCountAux sub.data s.data.length s.data

/-- Python `d[k]` / `d.get(k)` on an insertion-ordered dict modelled as
an association list (first matching key wins; keys are unique). -/
def alookup {κ : Type} [DecidableEq κ] {β : Type} : List (κ × β) → κ → Option β
  | [], _ => none
  | (k2, v) :: t, k => if k2 = k then some v else alookup t k

/-- Two-level dict access `d[k1][k2]`. -/
def alookup2 {β : Type} (l : List (String × List (String × β))) (k1 k2 : String) :
    Option β :=
  match alookup l k1 with
  | none => none
  | some inner => alookup inner k2

/-- Python `d[k] += v` on a trait dict: add `v` at key `k`.  (If the key
were absent Python would raise `KeyError`; every call site in the
module only touches keys that are present, so the missing-key case
never arises and is modelled as a no-op.) -/
def addToKey (l : List (String × Int)) (k : String) (v : Int) : List (String × Int) :=
  l.map (fun kv => if kv.1 = k then (kv.1, kv.2 + v) else kv)

/-- Apply a `trait_mods` dict entrywise (`for trait, mod in mods.items()`). -/
def applyMods (traits : List (String × Int)) (mods : List (String × Int)) :
    List (String × Int) :=
  mods.foldl (fun acc kv => addToKey acc kv.1 kv.2) traits

/-- Python truthiness of an `Optional[str]`: not `None` and non-empty. -/
def truthyStr : Option String → Bool
  | none => false
  | some s => s ≠ ""

/-- How Python renders an `Optional[str]` inside an f-string. -/
def optStr : Option String → String
  | none => "None"
  | some s => s

/-- The random oracle: call number `n` of the process-wide generator
yields the arbitrary natural `g n`. -/
abbrev RandSrc := Nat → Nat

/-- `random.choice(xs)` driven by the oracle, together with the bumped
call counter.  All call sites pass non-empty lists (Python would raise
on an empty one), so the out-of-range default is never reached. -/
def rchoice {α : Type} [Inhabited α] (g : RandSrc) (n : Nat) (xs : List α) : α × Nat :=
  (xs.getD (g n % xs.length) default, n + 1)

/-- `class Heritage`. -/
structure Heritage where
  ancestry : String
  ancestry_features : String × String
  community : String
  community_feature : String
deriving DecidableEq, Inhabited

/-- `class Subclass`. -/
structure Subclass where
  name : String
  spellcast_trait : String
  foundation : String
  specialization : String
  mastery : String
deriving DecidableEq, Inhabited

/-- `class ClassInfo`. -/
structure ClassInfo where
  name : String
  hp : Int
  evasion : Int
  domains : String × String
  feature : String
  subclasses : String × String
deriving DecidableEq, Inhabited

/-- `class Advancement` (a recorded advancement description). -/
structure Advancement where
  description : String
deriving DecidableEq, Inhabited

/-- One entry of the domain-card compendium (`domain_cards.json`).
Modelled from the spec: the JSON file is external data shipped next to
the module; each record carries name, domain, level, type, recall cost
and description. -/
structure DomainCard where
  name : String
  domain : String
  level : Int
  ctype : String
  recall_cost : Int
  description : String
deriving DecidableEq, Inhabited

/-- `class Character` (the dataclass, with its field defaults). -/
structure Character where
  name : Option String := none
  archetype : Option String := none
  level : Nat := 1
  char_class : Option String := none
  subclass : Option String := none
  hp : Int := 0
  evasion : Int := 0
  proficiency : Nat := 1
  stress : Int := 6
  hope : Int := 2
  traits : List (String × Int) := []
  base_hp : Int := 0
  base_evasion : Int := 0
  base_traits : List (String × Int) := []
  heritage : Option Heritage := none
  experiences : List String := []
  equipment : List (String × String) := []
  armor_thresholds : Int × Int := (0, 0)
  armor_score : Int := 0
  damage_roll : Option String := none
  domain_cards : List String := []
  advancements_log : List (Nat × List Advancement) := []
  subclass_upgrades : List String := []
deriving DecidableEq, Inhabited

/-- `Character.add_domain_card`. -/
def Character.addDomainCard (c : Character) (card_name : String) : Character :=
  if card_name ∈ c.domain_cards then c
  else { c with domain_cards := c.domain_cards ++ [card_name] }

/-- `Character.add_advance`: `advancements_log.setdefault(level, []).append(...)`. -/
def Character.addAdvance (c : Character) (level : Nat) (description : String) : Character :=
  { c with advancements_log :=
      if (alookup c.advancements_log level).isSome then
        (c.advancements_log.map (fun kv =>
          if kv.1 = level then (kv.1, kv.2 ++ [⟨description⟩]) else kv))
      else c.advancements_log ++ [(level, [⟨description⟩])] }

/-- `CLASSES` (order and values as in the source). -/
def CLASSES : List (String × ClassInfo) := [
  ("Bard", ⟨"Bard", 5, 10, ("Grace", "Codex"),
    "Make a Scene: Spend 3 Hope to temporarily Distract a target within Close range, giving them a -2 penalty to their Difficulty",
    ("Troubadour", "Wordsmith")⟩),
  ("Druid", ⟨"Druid", 6, 10, ("Sage", "Arcana"),
    "Evolution: Spend 3 Hope to transform into Beastform without marking a Stress; raise one trait by +1 until you drop out of Beastform",
    ("Warden of the Elements", "Warden of Renewal")⟩),
  ("Guardian", ⟨"Guardian", 7, 9, ("Valor", "Blade"),
    "Frontline Tank: Spend 3 Hope to clear 2 Armor Slots",
    ("Stalwart", "Vengeance")⟩),
  ("Ranger", ⟨"Ranger", 6, 12, ("Bone", "Sage"),
    "Hold Them Off: Spend 3 Hope when you succeed on an attack with a weapon to use that same roll against two additional adversaries within range",
    ("Beastbound", "Wayfinder")⟩),
  ("Rogue", ⟨"Rogue", 6, 12, ("Midnight", "Grace"),
    "Rogue\x27s Dodge: Spend 3 Hope to gain a +2 bonus to your Evasion until the next time an attack succeeds against you; otherwise this bonus lasts until your next rest",
    ("Nightwalker", "Syndicate")⟩),
  ("Seraph", ⟨"Seraph", 7, 9, ("Splendor", "Valor"),
    "Life Support: Spend 3 Hope to clear a Hit Point on an ally within Close range",
    ("Divine Wielder", "Winged Sentinel")⟩),
  ("Sorcerer", ⟨"Sorcerer", 6, 10, ("Arcana", "Midnight"),
    "Volatile Magic: Spend 3 Hope to reroll any number of your damage dice on an attack that deals magic damage",
    ("Elemental Origin", "Primal Origin")⟩),
  ("Warrior", ⟨"Warrior", 6, 11, ("Blade", "Bone"),
    "No Mercy: Spend 3 Hope to gain a +1 bonus to your attack rolls until your next rest",
    ("Call of the Brave", "Call of the Slayer")⟩),
  ("Wizard", ⟨"Wizard", 5, 11, ("Codex", "Splendor"),
    "Not This Time: Spend 3 Hope to force an adversary within Far range to reroll an attack or damage roll",
    ("School of Knowledge", "School of War")⟩)]

/-- `SUBCLASSES`. -/
def SUBCLASSES : List (String × List (String × Subclass)) := [
  ("Bard", [
    ("Troubadour", ⟨"Troubadour", "Presence", "Gifted Performer", "Well-Traveled", "Epic Poetry"⟩),
    ("Wordsmith", ⟨"Wordsmith", "Presence", "Cutting Words", "Silver Tongue", "Master of Rhetoric"⟩)]),
  ("Druid", [
    ("Warden of the Elements", ⟨"Warden of the Elements", "Instinct", "Elemental Incarnation", "Elemental Aura", "Elemental Dominion"⟩),
    ("Warden of Renewal", ⟨"Warden of Renewal", "Instinct", "Regeneration", "Regenerative Reach", "Verdant Renewal"⟩)]),
  ("Guardian", [
    ("Stalwart", ⟨"Stalwart", "Strength", "Unwavering", "Unrelenting", "Immovable"⟩),
    ("Vengeance", ⟨"Vengeance", "Strength", "At Ease", "Act of Reprisal", "Vengeful Spirit"⟩)]),
  ("Ranger", [
    ("Beastbound", ⟨"Beastbound", "Agility", "Companion", "Coordinated Attack", "Inseparable"⟩),
    ("Wayfinder", ⟨"Wayfinder", "Agility", "Forager", "Hunter\x27s Mark", "Master of the Hunt"⟩)]),
  ("Rogue", [
    ("Nightwalker", ⟨"Nightwalker", "Finesse", "Shadow Step", "Dark Cloud", "One with the Shadows"⟩),
    ("Syndicate", ⟨"Syndicate", "Finesse", "Black Market Connections", "Contacts Everywhere", "Pulling Strings"⟩)]),
  ("Seraph", [
    ("Divine Wielder", ⟨"Divine Wielder", "Strength", "Sparing Touch", "Devout", "Divine Intervention"⟩),
    ("Winged Sentinel", ⟨"Winged Sentinel", "Strength", "Wings of Light", "Ethereal Visage", "Ascendant"⟩)]),
  ("Sorcerer", [
    ("Elemental Origin", ⟨"Elemental Origin", "Instinct", "Elementalist", "Natural Evasion", "Transcendence"⟩),
    ("Primal Origin", ⟨"Primal Origin", "Instinct", "Manipulate Magic", "Enchanted Aid", "Arcane Charge"⟩)]),
  ("Warrior", [
    ("Call of the Brave", ⟨"Call of the Brave", "Strength", "Courage", "Rise to the Challenge", "Fearless"⟩),
    ("Call of the Slayer", ⟨"Call of the Slayer", "Strength", "Slayer", "Weapon Specialist", "Unstoppable Carnage"⟩)]),
  ("Wizard", [
    ("School of Knowledge", ⟨"School of Knowledge", "Knowledge", "Prepared", "Accomplished", "Brilliant"⟩),
    ("School of War", ⟨"School of War", "Knowledge", "Battlemage", "Conjure Shield", "Thrive in Chaos"⟩)])]

/-- `ANCESTRIES` (name, two features). -/
def ANCESTRIES : List (String × (String × String)) := [
  ("Clank", ("Purposeful Design: Choose one Experience that aligns with your purpose; gain a permanent +1 bonus to it.",
    "Efficient: When you take a short rest, you can choose a long rest move instead.")),
  ("Drakona", ("Scales: When you would take Severe damage, mark a Stress to mark 1 fewer HP.",
    "Elemental Breath: Use an Instinct‑based weapon attack (d8 magic damage) within Very Close range.")),
  ("Dwarf", ("Thick Skin: When you take Minor damage, you can mark 2 Stress instead of 1 HP.",
    "Increased Fortitude: Spend 3 Hope to halve incoming physical damage.")),
  ("Elf", ("Fey Ancestry: You have advantage on rolls to resist magical effects.",
    "Trance: During a long rest, you can remain conscious and aware of your surroundings.")),
  ("Faerie", ("Fey Wings: You can fly for short distances.",
    "Fey Magic: You know one minor illusion spell.")),
  ("Faun", ("Sure‑Footed: You have advantage on rolls to keep your balance and avoid being knocked prone.",
    "Naturalist: You have advantage on rolls related to identifying plants and animals.")),
  ("Firbolg", ("Firbolg Magic: You can cast Disguise Self and Invisibility once per long rest.",
    "Powerful Build: You count as one size larger for carrying capacity and pushing/dragging weight.")),
  ("Fungril", ("Spore Cloud: Once per rest, release a cloud of spores; creatures in it have disadvantage on perception checks.",
    "Decomposer: You can consume organic matter to gain sustenance.")),
  ("Galapa", ("Shell Defense: You can use an action to withdraw into your shell, gaining a +4 bonus to Evasion but you cannot move or take actions.",
    "Amphibious: You can breathe air and water.")),
  ("Giant", ("Reach: Your melee attacks have a longer reach (add one range band).",
    "Endurance: Gain an additional Hit Point slot.")),
  ("Goblin", ("Nimble Escape: You can take the Disengage or Hide action as a bonus action.",
    "Fury of the Small: When you damage a creature larger than you, you can add your Proficiency to the damage roll.")),
  ("Halfling", ("Lucky: When you roll a 1 on a d20 for an attack roll, ability check, or saving throw, you can reroll the die.",
    "Brave: You have advantage on saving throws against being Frightened.")),
  ("Human", ("Versatile: Gain a +1 bonus to two different character traits of your choice.",
    "High Stamina: Gain an additional Stress slot.")),
  ("Infernis", ("Fire Resistance: You have resistance to fire damage.",
    "Hellish Rebuke: When a creature within Melee range damages you, you can use your reaction to deal 2d10 fire damage to them.")),
  ("Katari", ("Feline Instincts: You can reroll an Agility Roll once per rest.",
    "Claws: You have a natural Melee weapon that deals 1d6 physical damage.")),
  ("Orc", ("Aggressive: As a bonus action on your turn, you can move up to your speed toward an enemy.",
    "Powerful Build: You count as one size larger for carrying capacity and pushing/dragging weight.")),
  ("Ribbet", ("Amphibious: You can breathe air and water.",
    "Sticky Tongue: You have a natural weapon with Close range that can pull smaller objects or creatures towards you.")),
  ("Simiah", ("Prehensile Tail: You can use your tail to hold or manipulate an object.",
    "Nimble: Gain a permanent +1 bonus to your Evasion."))]

/-- `COMMUNITIES`. -/
def COMMUNITIES : List (String × String) := [
  ("Highborne", "Well‑Connected: Once per session, you can declare you know someone important in the current location. Work with the GM to define this NPC."),
  ("Loreborne", "Educated: You have advantage on Knowledge rolls related to history, arcana, or religion."),
  ("Orderborne", "By the Book: When you follow a clear plan or order, you gain advantage on the first action roll you make to execute it."),
  ("Ridgeborne", "Mountaineer: You have advantage on rolls made to climb or navigate mountainous terrain."),
  ("Seaborne", "Know the Tide: When you roll with Fear, you can re‑roll one of the Fear dice.")]

/-- `TRAIT_PRIORITIES`. -/
def TRAIT_PRIORITIES : List (String × List String) := [
  ("Tank", ["Strength", "Instinct", "Agility", "Finesse", "Presence", "Knowledge"]),
  ("Damage", ["Strength", "Finesse", "Agility", "Instinct", "Presence", "Knowledge"]),
  ("Sneaky", ["Finesse", "Agility", "Instinct", "Presence", "Knowledge", "Strength"]),
  ("Support", ["Presence", "Knowledge", "Instinct", "Agility", "Finesse", "Strength"]),
  ("Healer", ["Presence", "Instinct", "Knowledge", "Agility", "Finesse", "Strength"]),
  ("Face", ["Presence", "Finesse", "Agility", "Knowledge", "Instinct", "Strength"]),
  ("Control", ["Knowledge", "Instinct", "Presence", "Finesse", "Agility", "Strength"])]

/-- `CLASS_PRIMARY_TRAIT`. -/
def CLASS_PRIMARY_TRAIT : List (String × String) := [
  ("Bard", "Presence"), ("Druid", "Instinct"), ("Guardian", "Strength"),
  ("Ranger", "Agility"), ("Rogue", "Finesse"), ("Seraph", "Strength"),
  ("Sorcerer", "Instinct"), ("Warrior", "Strength"), ("Wizard", "Knowledge")]

/-- `SUBCLASS_PREFERENCE` (module-level constant used by `create_character`). -/
def SUBCLASS_PREFERENCE : List ((String × String) × String) := [
  (("Tank", "Guardian"), "Stalwart"),
  (("Tank", "Warrior"), "Call of the Brave"),
  (("Damage", "Warrior"), "Call of the Slayer"),
  (("Damage", "Rogue"), "Nightwalker"),
  (("Damage", "Ranger"), "Wayfinder"),
  (("Damage", "Sorcerer"), "Elemental Origin"),
  (("Sneaky", "Rogue"), "Nightwalker"),
  (("Sneaky", "Ranger"), "Wayfinder"),
  (("Support", "Seraph"), "Divine Wielder"),
  (("Support", "Bard"), "Troubadour"),
  (("Support", "Druid"), "Warden of Renewal"),
  (("Support", "Wizard"), "School of Knowledge"),
  (("Healer", "Seraph"), "Divine Wielder"),
  (("Healer", "Druid"), "Warden of Renewal"),
  (("Healer", "Bard"), "Troubadour"),
  (("Face", "Bard"), "Wordsmith"),
  (("Face", "Rogue"), "Syndicate"),
  (("Face", "Seraph"), "Divine Wielder"),
  (("Control", "Wizard"), "School of War"),
  (("Control", "Druid"), "Warden of the Elements"),
  (("Control", "Sorcerer"), "Primal Origin")]

/-- The `options` table local to `choose_class_and_subclass`
(primary classes, secondary classes). -/
def ARCHETYPE_OPTIONS : List (String × (List String × List String)) := [
  ("Tank", (["Guardian", "Warrior"], [])),
  ("Damage", (["Warrior", "Rogue"], ["Ranger", "Sorcerer"])),
  ("Sneaky", (["Rogue", "Ranger"], [])),
  ("Support", (["Seraph", "Bard", "Druid"], ["Wizard"])),
  ("Healer", (["Seraph", "Druid"], ["Bard"])),
  ("Face", (["Bard"], ["Rogue", "Seraph"])),
  ("Control", (["Wizard", "Druid"], ["Sorcerer"]))]

/-- The `subclass_map` table local to `choose_class_and_subclass`
(same content as `SUBCLASS_PREFERENCE`, kept separate as in the source). -/
def SUBCLASS_MAP : List ((String × String) × String) := [
  (("Tank", "Guardian"), "Stalwart"),
  (("Tank", "Warrior"), "Call of the Brave"),
  (("Damage", "Warrior"), "Call of the Slayer"),
  (("Damage", "Rogue"), "Nightwalker"),
  (("Damage", "Ranger"), "Wayfinder"),
  (("Damage", "Sorcerer"), "Elemental Origin"),
  (("Sneaky", "Rogue"), "Nightwalker"),
  (("Sneaky", "Ranger"), "Wayfinder"),
  (("Support", "Seraph"), "Divine Wielder"),
  (("Support", "Bard"), "Troubadour"),
  (("Support", "Druid"), "Warden of Renewal"),
  (("Support", "Wizard"), "School of Knowledge"),
  (("Healer", "Seraph"), "Divine Wielder"),
  (("Healer", "Druid"), "Warden of Renewal"),
  (("Healer", "Bard"), "Troubadour"),
  (("Face", "Bard"), "Wordsmith"),
  (("Face", "Rogue"), "Syndicate"),
  (("Face", "Seraph"), "Divine Wielder"),
  (("Control", "Wizard"), "School of War"),
  (("Control", "Druid"), "Warden of the Elements"),
  (("Control", "Sorcerer"), "Primal Origin")]

/-- The `themes` table local to `generate_experiences`. -/
def EXPERIENCE_THEMES : List (String × (String × String)) := [
  ("Tank", ("Bulwark", "Defender")),
  ("Damage", ("Slayer", "Weapon Master")),
  ("Sneaky", ("Shadow Dweller", "Master of Disguise")),
  ("Support", ("Inspirational Leader", "Tactical Advisor")),
  ("Healer", ("Field Medic", "Spiritual Healer")),
  ("Face", ("Silver Tongue", "Charming Performer")),
  ("Control", ("Arcane Scholar", "Battlefield Manipulator"))]

/-- The `keywords` table local to `pick_domain_card`. -/
def CARD_KEYWORDS : List (String × List String) := [
  ("Tank", ["damage", "reduce", "shield", "armor", "threshold", "hp"]),
  ("Damage", ["damage", "bonus", "attack", "weapon", "proficiency"]),
  ("Sneaky", ["stealth", "shadow", "hidden", "cloak", "invisibility"]),
  ("Support", ["ally", "hope", "gain", "inspire", "help"]),
  ("Healer", ["heal", "hit point", "restore", "regenerate", "revive"]),
  ("Face", ["charm", "deceive", "social", "persuade", "charisma"]),
  ("Control", ["control", "manipulate", "move", "stun", "restrain"])]

/-- A tier-1 primary weapon entry. -/
structure PrimaryWeapon where
  trait : String
  die : Nat
  flat : Int
  two_handed : Bool
  evasion_mod : Int
  trait_mods : List (String × Int)
  feature : String
deriving DecidableEq, Inhabited

/-- A tier-1 secondary weapon entry. -/
structure SecondaryWeapon where
  trait : String
  die : Nat
  flat : Int
  paired_bonus : Int
  armor_bonus : Int
  evasion_mod : Int
  trait_mods : List (String × Int)
  feature : String
deriving DecidableEq, Inhabited

/-- A tier-1 armour entry. -/
structure ArmourItem where
  thresholds : Int × Int
  score : Int
  evasion_mod : Int
  trait_mods : List (String × Int)
  feature : String
deriving DecidableEq, Inhabited

/-- `TIER1_PRIMARY_WEAPONS`. -/
def TIER1_PRIMARY_WEAPONS : List (String × PrimaryWeapon) := [
  ("Broadsword", ⟨"Agility", 8, 0, false, 0, [], "Reliable: +1 to attack rolls"⟩),
  ("Longsword", ⟨"Agility", 8, 3, true, 0, [], ""⟩),
  ("Battleaxe", ⟨"Strength", 10, 3, true, 0, [], ""⟩),
  ("Greatsword", ⟨"Strength", 10, 3, true, -1, [],
    "Massive: −1 Evasion; roll an extra damage die and drop the lowest on a success"⟩),
  ("Mace", ⟨"Strength", 8, 1, false, 0, [], ""⟩),
  ("Warhammer", ⟨"Strength", 12, 3, true, -1, [], "Heavy: −1 Evasion"⟩),
  ("Dagger", ⟨"Finesse", 8, 1, false, 0, [], ""⟩),
  ("Quarterstaff", ⟨"Instinct", 10, 3, true, 0, [], ""⟩),
  ("Cutlass", ⟨"Presence", 8, 1, false, 0, [], ""⟩),
  ("Rapier", ⟨"Presence", 8, 0, false, 0, [],
    "Quick: mark a Stress to target another creature within range"⟩),
  ("Halberd", ⟨"Strength", 10, 2, true, 0, [("Finesse", -1)], "Cumbersome: −1 to Finesse"⟩),
  ("Spear", ⟨"Finesse", 10, 2, true, 0, [("Finesse", -1)], "Cumbersome: −1 to Finesse"⟩),
  ("Shortbow", ⟨"Agility", 6, 3, true, 0, [], ""⟩),
  ("Crossbow", ⟨"Finesse", 6, 1, false, 0, [], ""⟩),
  ("Longbow", ⟨"Agility", 8, 3, true, 0, [("Finesse", -1)], "Cumbersome: −1 to Finesse"⟩),
  ("Arcane Gauntlets", ⟨"Strength", 10, 3, true, 0, [], ""⟩),
  ("Hallowed Axe", ⟨"Strength", 8, 1, false, 0, [], ""⟩),
  ("Glowing Rings", ⟨"Agility", 10, 1, true, 0, [], ""⟩),
  ("Hand Runes", ⟨"Instinct", 10, 0, false, 0, [], ""⟩),
  ("Returning Blade", ⟨"Finesse", 8, 0, false, 0, [],
    "Returning: automatically returns after being thrown"⟩),
  ("Shortstaff", ⟨"Instinct", 8, 1, false, 0, [], ""⟩),
  ("Dualstaff", ⟨"Instinct", 6, 3, true, 0, [], ""⟩),
  ("Scepter", ⟨"Presence", 6, 0, true, 0, [],
    "Versatile: also usable as Presence, Melee, d8"⟩),
  ("Wand", ⟨"Knowledge", 6, 1, false, 0, [], ""⟩),
  ("Greatstaff", ⟨"Knowledge", 6, 0, true, 0, [],
    "Powerful: roll an extra damage die and drop the lowest"⟩)]

/-- `TIER1_SECONDARY_WEAPONS`. -/
def TIER1_SECONDARY_WEAPONS : List (String × SecondaryWeapon) := [
  ("Shortsword", ⟨"Agility", 8, 0, 2, 0, 0, [], "Paired: +2 to primary damage within Melee range"⟩),
  ("Round Shield", ⟨"Strength", 4, 0, 0, 1, 0, [], "Protective: +1 to Armor Score"⟩),
  ("Tower Shield", ⟨"Strength", 6, 0, 0, 2, -1, [], "Barrier: +2 to Armor Score; −1 Evasion"⟩),
  ("Small Dagger", ⟨"Finesse", 8, 0, 2, 0, 0, [], "Paired: +2 to primary damage within Melee range"⟩),
  ("Whip", ⟨"Presence", 6, 0, 0, 0, 0, [], "Startling: mark a Stress to push adversaries"⟩),
  ("Grappler", ⟨"Finesse", 6, 0, 0, 0, 0, [], "Hooked: pull the target into Melee range on a hit"⟩),
  ("Hand Crossbow", ⟨"Finesse", 6, 1, 0, 0, 0, [], ""⟩)]

/-- `TIER1_ARMOUR`. -/
def TIER1_ARMOUR : List (String × ArmourItem) := [
  ("Gambeson Armor", ⟨(5, 11), 3, 1, [], "Flexible: +1 to Evasion"⟩),
  ("Leather Armor", ⟨(6, 13), 3, 0, [], ""⟩),
  ("Chainmail Armor", ⟨(7, 15), 4, -1, [], "Heavy: −1 to Evasion"⟩),
  ("Full Plate Armor", ⟨(8, 17), 4, -2, [("Agility", -1)],
    "Very Heavy: −2 to Evasion; −1 to Agility"⟩)]

/-- The fields of `Character` written by `apply_equipment`. -/
structure EquipView where
  hp : Int
  evasion : Int
  traits : List (String × Int)
  equipment : List (String × String)
  armor_thresholds : Int × Int
  armor_score : Int
  damage_roll : Option String
deriving DecidableEq

/-- Python `primary and primary in TIER1_PRIMARY_WEAPONS` followed by
the catalog access, as one partial lookup. -/
def lookupPrimary (primary : Option String) : Option PrimaryWeapon :=
  if truthyStr primary then alookup TIER1_PRIMARY_WEAPONS (primary.getD "") else none

/-- Guarded lookup for the secondary-weapon slot. -/
def lookupSecondary (secondary : Option String) : Option SecondaryWeapon :=
  if truthyStr secondary then alookup TIER1_SECONDARY_WEAPONS (secondary.getD "") else none

/-- Guarded lookup for the armour slot. -/
def lookupArmour (armour : Option String) : Option ArmourItem :=
  if truthyStr armour then alookup TIER1_ARMOUR (armour.getD "") else none

/-- The `character.equipment` dict rebuilt by `apply_equipment`: each
truthy (non-`None`, non-empty) raw name is recorded under its slot. -/
def recordNames (primary secondary armour : Option String) : List (String × String) :=
  (if truthyStr primary then [("primary", primary.getD "")] else [])
  ++ (if truthyStr secondary then [("secondary", secondary.getD "")] else [])
  ++ (if truthyStr armour then [("armor", armour.getD "")] else [])

/-- The body of `apply_equipment`, computed from the only fields of the
character that the Python function reads: `base_hp`, `base_evasion`,
`base_traits`, `level` and `proficiency`.  The statement sequence
mirrors the source line by line. -/
def computeEquip (base_hp base_evasion : Int) (base_traits : List (String × Int))
    (level proficiency : Nat) (primary secondary armour : Option String) : EquipView :=
  -- Reset to base values
  let v : EquipView := ⟨base_hp, base_evasion, base_traits, [], (0, 0), 0, none⟩
  -- Record equipment names (Python truthiness skips None and "")
  let v := { v with equipment := recordNames primary secondary armour }
  -- Apply armour
  let v :=
    match lookupArmour armour with
    | some data =>
      let v := { v with
        armor_thresholds := (data.thresholds.1 + (level : Int), data.thresholds.2 + (level : Int)),
        armor_score := data.score,
        evasion := v.evasion + data.evasion_mod }
      { v with traits := applyMods v.traits data.trait_mods }
    | none => v
  -- Apply primary weapon
  let primary_data : Option PrimaryWeapon := lookupPrimary primary
  let v :=
    match primary_data with
    | some pd =>
      let v := { v with evasion := v.evasion + pd.evasion_mod }
      { v with traits := applyMods v.traits pd.trait_mods }
    | none => v
  let flat_bonus : Int :=
    match primary_data with
    | some pd => pd.flat
    | none => 0
  -- Apply secondary weapon
  let secondary_data : Option SecondaryWeapon := lookupSecondary secondary
  let v :=
    match secondary_data with
    | some sd =>
      let v := { v with
        armor_score := v.armor_score + sd.armor_bonus,
        evasion := v.evasion + sd.evasion_mod }
      { v with traits := applyMods v.traits sd.trait_mods }
    | none => v
  let flat_bonus :=
    flat_bonus + (match secondary_data with | some sd => sd.paired_bonus | none => 0)
  -- Compute damage roll expression
  match primary_data with
  | some pd =>
    let dmg := toString proficiency ++ "d" ++ toString pd.die
    let dmg := if flat_bonus ≠ 0 then dmg ++ "+" ++ toString flat_bonus else dmg
    { v with damage_roll := some dmg }
  | none => v

/-- `apply_equipment`: reset the equipment-derived fields and reapply
the chosen items; every other field of the character is untouched. -/
def applyEquipment (c : Character) (primary secondary armour : Option String) : Character :=
  let v := computeEquip c.base_hp c.base_evasion c.base_traits c.level c.proficiency
    primary secondary armour
  { c with hp := v.hp, evasion := v.evasion, traits := v.traits,
           equipment := v.equipment, armor_thresholds := v.armor_thresholds,
           armor_score := v.armor_score, damage_roll := v.damage_roll }

/-- The six stat fields of a character that unknown equipment names must
leave unaffected (everything `apply_equipment` writes except the raw
`equipment` name map). -/
def statView (c : Character) :
    Int × Int × List (String × Int) × (Int × Int) × Int × Option String :=
  (c.hp, c.evasion, c.traits, c.armor_thresholds, c.armor_score, c.damage_roll)

lemma applyEquipment_unknown_primary (c : Character) (p : String) (s a : Option String)
    (h : alookup TIER1_PRIMARY_WEAPONS p = none) :
    statView (applyEquipment c (some p) s a) = statView (applyEquipment c none s a) := by
  by_cases hp : p = ""
  · subst hp
    simp [statView, applyEquipment, computeEquip, lookupPrimary, recordNames, truthyStr]
  · have hlp : lookupPrimary (some p) = none := by
      simp [lookupPrimary, truthyStr, hp, h]
    have hlp2 : lookupPrimary none = none := rfl
    simp only [statView, applyEquipment, computeEquip, hlp, hlp2]
    generalize lookupSecondary s = sd
    generalize lookupArmour a = ad
    cases sd <;> cases ad <;> rfl

lemma applyEquipment_unknown_secondary (c : Character) (s : String) (p a : Option String)
    (h : alookup TIER1_SECONDARY_WEAPONS s = none) :
    statView (applyEquipment c p (some s) a) = statView (applyEquipment c p none a) := by
  by_cases hs : s = ""
  · subst hs
    simp [statView, applyEquipment, computeEquip, lookupSecondary, recordNames, truthyStr]
  · have hls : lookupSecondary (some s) = none := by
      simp [lookupSecondary, truthyStr, hs, h]
    have hls2 : lookupSecondary none = none := rfl
    simp only [statView, applyEquipment, computeEquip, hls, hls2]
    generalize lookupPrimary p = pd
    generalize lookupArmour a = ad
    cases pd <;> cases ad <;> rfl

lemma applyEquipment_unknown_armour (c : Character) (a : String) (p s : Option String)
    (h : alookup TIER1_ARMOUR a = none) :
    statView (applyEquipment c p s (some a)) = statView (applyEquipment c p s none) := by
  by_cases ha : a = ""
  · subst ha
    simp [statView, applyEquipment, computeEquip, lookupArmour, recordNames, truthyStr]
  · have hla : lookupArmour (some a) = none := by
      simp [lookupArmour, truthyStr, ha, h]
    have hla2 : lookupArmour none = none := rfl
    simp only [statView, applyEquipment, computeEquip, hla, hla2]
    generalize lookupPrimary p = pd
    generalize lookupSecondary s = sd
    cases pd <;> cases sd <;> rfl

lemma applyEquipment_equipment_eq (c : Character) (p s a : Option String) :
    (applyEquipment c p s a).equipment = recordNames p s a := by
  simp only [applyEquipment, computeEquip]
  generalize lookupPrimary p = pd
  generalize lookupSecondary s = sd
  generalize lookupArmour a = ad
  cases pd <;> cases sd <;> cases ad <;> rfl

lemma recordNames_primary (p : String) (s a : Option String) (hne : p ≠ "") :
    alookup (recordNames (some p) s a) "primary" = some p := by
  simp [recordNames, truthyStr, hne, alookup]

lemma recordNames_secondary (s : String) (p a : Option String) (hne : s ≠ "") :
    alookup (recordNames p (some s) a) "secondary" = some s := by
  cases p with
  | none => simp [recordNames, truthyStr, hne, alookup]
  | some pv =>
    by_cases hp : pv = "" <;>
      simp [recordNames, truthyStr, hne, hp, alookup]

lemma recordNames_armour (a : String) (p s : Option String) (hne : a ≠ "") :
    alookup (recordNames p s (some a)) "armor" = some a := by
  cases p with
  | none =>
    cases s with
    | none => simp [recordNames, truthyStr, hne, alookup]
    | some sv => by_cases hs : sv = "" <;> simp [recordNames, truthyStr, hne, hs, alookup]
  | some pv =>
    cases s with
    | none => by_cases hp : pv = "" <;> simp [recordNames, truthyStr, hne, hp, alookup]
    | some sv =>
      by_cases hp : pv = "" <;> by_cases hs : sv = "" <;>
        simp [recordNames, truthyStr, hne, hp, hs, alookup]

/-- Claim C3: applying equipment twice in a row is the same as applying
only the second selection — `apply_equipment` first resets every derived
field from the stored base values, so nothing stacks across calls. -/
theorem C3_apply_equipment_no_stacking (c : Character) (p1 s1 a1 p2 s2 a2 : Option String) :
    applyEquipment (applyEquipment c p1 s1 a1) p2 s2 a2 = applyEquipment c p2 s2 a2 := rfl

/-- Claim C8: `apply_equipment(char, None, None, None)` resets hp,
evasion and traits to the stored base values and clears equipment,
armour thresholds, armour score and damage roll. -/
theorem C8_apply_equipment_reset (c : Character) :
    applyEquipment c none none none =
      { c with hp := c.base_hp, evasion := c.base_evasion, traits := c.base_traits,
               equipment := [], armor_thresholds := (0, 0), armor_score := 0,
               damage_roll := none } := rfl

/-- Claim C4: on a level-1 character with proficiency 1, equipping a
Longsword and Chainmail Armor yields damage roll "1d8+3", armour
thresholds (8, 16), armour score 4 and evasion `base_evasion - 1`. -/
theorem C4_longsword_chainmail (c : Character)
    (hl : c.level = 1) (hpr : c.proficiency = 1) :
    (applyEquipment c (some "Longsword") none (some "Chainmail Armor")).damage_roll
        = some "1d8+3" ∧
    (applyEquipment c (some "Longsword") none (some "Chainmail Armor")).armor_thresholds
        = (8, 16) ∧
    (applyEquipment c (some "Longsword") none (some "Chainmail Armor")).armor_score = 4 ∧
    (applyEquipment c (some "Longsword") none (some "Chainmail Armor")).evasion
        = c.base_evasion - 1 := by
  refine ⟨?_, ?_, ?_, ?_⟩
  · simp [applyEquipment, computeEquip, lookupPrimary, lookupSecondary, lookupArmour,
      alookup, truthyStr, hpr]
    decide
  · simp [applyEquipment, computeEquip, lookupPrimary, lookupSecondary, lookupArmour,
      alookup, truthyStr, hl]
  · simp [applyEquipment, computeEquip, lookupPrimary, lookupSecondary, lookupArmour,
      alookup, truthyStr]
  · simp [applyEquipment, computeEquip, lookupPrimary, lookupSecondary, lookupArmour,
      alookup, truthyStr]
    omega

/-- Witness for C4 at a concrete character (the dataclass defaults give
level 1 and proficiency 1). -/
theorem C4_longsword_chainmail_witness :
    (applyEquipment {} (some "Longsword") none (some "Chainmail Armor")).damage_roll
        = some "1d8+3" ∧
    (applyEquipment {} (some "Longsword") none (some "Chainmail Armor")).armor_thresholds
        = (8, 16) ∧
    (applyEquipment {} (some "Longsword") none (some "Chainmail Armor")).armor_score = 4 ∧
    (applyEquipment {} (some "Longsword") none (some "Chainmail Armor")).evasion
        = ({} : Character).base_evasion - 1 :=
  C4_longsword_chainmail {} rfl rfl

/-- Claim C9: an item name that is not in the corresponding catalog
contributes nothing to any stat field (hp, evasion, traits, armour
thresholds, armour score, damage roll), yet the raw name is still
recorded under its slot in the equipment map whenever it is non-empty. -/
theorem C9_unknown_items_ignored (c : Character) (p s a : Option String) (pn sn an : String) :
    (alookup TIER1_PRIMARY_WEAPONS pn = none →
      statView (applyEquipment c (some pn) s a) = statView (applyEquipment c none s a) ∧
      (pn ≠ "" → alookup (applyEquipment c (some pn) s a).equipment "primary" = some pn)) ∧
    (alookup TIER1_SECONDARY_WEAPONS sn = none →
      statView (applyEquipment c p (some sn) a) = statView (applyEquipment c p none a) ∧
      (sn ≠ "" → alookup (applyEquipment c p (some sn) a).equipment "secondary" = some sn)) ∧
    (alookup TIER1_ARMOUR an = none →
      statView (applyEquipment c p s (some an)) = statView (applyEquipment c p s none) ∧
      (an ≠ "" → alookup (applyEquipment c p s (some an)).equipment "armor" = some an)) := by
  refine ⟨fun h => ⟨applyEquipment_unknown_primary c pn s a h, fun hne => ?_⟩,
    fun h => ⟨applyEquipment_unknown_secondary c sn p a h, fun hne => ?_⟩,
    fun h => ⟨applyEquipment_unknown_armour c an p s h, fun hne => ?_⟩⟩
  · rw [applyEquipment_equipment_eq]; exact recordNames_primary pn s a hne
  · rw [applyEquipment_equipment_eq]; exact recordNames_secondary sn p a hne
  · rw [applyEquipment_equipment_eq]; exact recordNames_armour an p s hne

/-- Witness for C9: concrete unknown names in all three slots. -/
theorem C9_unknown_items_ignored_witness :
    (statView (applyEquipment {} (some "Excalibur") none none)
        = statView (applyEquipment {} none none none) ∧
      alookup (applyEquipment {} (some "Excalibur") none none).equipment "primary"
        = some "Excalibur") ∧
    (statView (applyEquipment {} none (some "Buckler") none)
        = statView (applyEquipment {} none none none) ∧
      alookup (applyEquipment {} none (some "Buckler") none).equipment "secondary"
        = some "Buckler") ∧
    (statView (applyEquipment {} none none (some "Robe"))
        = statView (applyEquipment {} none none none) ∧
      alookup (applyEquipment {} none none (some "Robe")).equipment "armor"
        = some "Robe") := by
  obtain ⟨h1, h2, h3⟩ :=
    C9_unknown_items_ignored {} none none none "Excalibur" "Buckler" "Robe"
  exact ⟨⟨(h1 (by decide)).1, (h1 (by decide)).2 (by decide)⟩,
    ⟨(h2 (by decide)).1, (h2 (by decide)).2 (by decide)⟩,
    ⟨(h3 (by decide)).1, (h3 (by decide)).2 (by decide)⟩⟩

/-- `choose_class_and_subclass`: weighted class pick plus subclass
resolution.  `none` models the `ValueError` for an unknown archetype
(and the unreachable `KeyError` paths of the dict accesses). -/
def chooseClassAndSubclass (g : RandSrc) (n : Nat) (archetype : String) :
    Option ((String × Subclass) × Nat) :=
  let archetype := pyTitle archetype
  if pyLower archetype = "random" ∨ pyLower archetype = "any" ∨ pyLower archetype = "" then
    let (class_name, n) := rchoice g n (CLASSES.map Prod.fst)
    (alookup SUBCLASSES class_name).bind fun subs =>
      let (subclass_name, n) := rchoice g n (subs.map Prod.fst)
      (alookup subs subclass_name).bind fun si => some ((class_name, si), n)
  else
    (alookup ARCHETYPE_OPTIONS archetype).bind fun opts =>
      let choice_pool := opts.1 ++ opts.1 ++ opts.1 ++ opts.2
      let (class_name, n) := rchoice g n choice_pool
      match alookup SUBCLASS_MAP (archetype, class_name) with
      | some subclass_name =>
        (alookup2 SUBCLASSES class_name subclass_name).bind fun si =>
          some ((class_name, si), n)
      | none =>
        (alookup SUBCLASSES class_name).bind fun subs =>
          let (subclass_name, n) := rchoice g n (subs.map Prod.fst)
          (alookup subs subclass_name).bind fun si => some ((class_name, si), n)

/-- `select_heritage`: one uniform ancestry pick, one uniform community
pick. -/
def selectHeritage (g : RandSrc) (n : Nat) : Heritage × Nat :=
  let (anc, n) := rchoice g n ANCESTRIES
  let (com, n) := rchoice g n COMMUNITIES
  (⟨anc.1, anc.2, com.1, com.2⟩, n)

/-- The base modifier array `[+2, +1, +1, 0, 0, -1]`. -/
def BASE_MODS : List Int := [2, 1, 1, 0, 0, -1]

/-- The primary-trait determination at the top of `assign_traits`: the
subclass's spellcast trait if a subclass is given, else the class's
entry in `CLASS_PRIMARY_TRAIT` (via `.get`, so absence is `None`). -/
def primaryTraitOf (class_name : Option String) (subclass : Option Subclass) :
    Option String :=
  match subclass with
  | some sc => some sc.spellcast_trait
  | none =>
    match class_name with
    | some cn => alookup CLASS_PRIMARY_TRAIT cn
    | none => none

/-- The trait ordering built by `assign_traits`: a truthy primary trait
that occurs in the archetype order is moved to the front. -/
def orderedTraits (primary_trait : Option String) (archetype_order : List String) :
    List String :=
  match primary_trait with
  | some pt =>
    if pt ≠ "" ∧ pt ∈ archetype_order then pt :: archetype_order.erase pt
    else archetype_order
  | none => archetype_order

/-- `assign_traits`.  `none` models the `KeyError` raised when the
archetype has no entry in `TRAIT_PRIORITIES`. -/
def assignTraits (archetype : String) (class_name : Option String)
    (subclass : Option Subclass) : Option (List (String × Int)) :=
  match alookup TRAIT_PRIORITIES (pyTitle archetype) with
  | none => none
  | some archetype_order =>
    some ((orderedTraits (primaryTraitOf class_name subclass) archetype_order).zip BASE_MODS)

/-- `generate_experiences`.  `none` models the `KeyError` for an
archetype missing from the themes table. -/
def generateExperiences (archetype : String) (char_class : String) :
    Option (List String) :=
  match alookup EXPERIENCE_THEMES (pyTitle archetype) with
  | none => none
  | some bases => some [bases.1 ++ " " ++ char_class, bases.2 ++ " " ++ char_class]

/-- The keyword-synergy score of one card for one (title-cased)
archetype: total occurrence count of the keywords in the lowercased
description. -/
def cardScore (arche : String) (card : DomainCard) : Nat :=
  let desc := pyLower card.description
  ((alookup CARD_KEYWORDS arche).getD []).foldl (fun acc kw => acc + pyCount desc kw) 0

/-- `pick_domain_card`: filter the compendium to eligible cards, score
them, and choose uniformly among the top scorers.  Returns the bumped
random counter; the inner `none` signals exhaustion (no eligible card),
the outer `none` models the `KeyError` when the character's class is
not a catalog key. -/
def pickDomainCard (cards : List DomainCard) (g : RandSrc) (n : Nat)
    (c : Character) (archetype : String) (level : Nat) :
    Option (Option String × Nat) :=
  c.char_class.bind fun cls =>
    (alookup CLASSES cls).bind fun ci =>
      let class_domains := ci.domains
      let eligible := cards.filter (fun cd =>
        (cd.domain == class_domains.1 || cd.domain == class_domains.2)
        && decide (cd.level ≤ (level : Int))
        && !(c.domain_cards.contains cd.name))
      if eligible.isEmpty then some (none, n)
      else
        let arche := pyTitle archetype
        let scored := eligible.map (fun card => (cardScore arche card, card))
        let max_score := (scored.map Prod.fst).foldl max 0
        let best_cards := (scored.filter (fun sc => sc.1 == max_score)).map Prod.snd
        let (chosen, n) := rchoice g n best_cards
        some (some chosen.name, n)

/-- One iteration of the loop in `increase_traits`: bump the
lowest-valued trait (earliest key on ties, like Python `min` over a
dict) by +1. -/
def increaseTraitsOnce (c : Character) : Character :=
  match c.traits with
  | [] => c   -- Python `min` would raise here; traits are never empty in the flow
  | kv :: t =>
    let trait_name := (t.foldl (fun best kv2 => if kv2.2 < best.2 then kv2 else best) kv).1
    { c with traits := addToKey c.traits trait_name 1 }

/-- The `increase_traits` advancement (its default `n = 2` is used at
every call site). -/
def increaseTraits (c : Character) (level : Nat) : Character :=
  (increaseTraitsOnce (increaseTraitsOnce c)).addAdvance level "Increased 2 traits by +1"

/-- The `add_hp_slot` advancement. -/
def addHpSlot (c : Character) (level : Nat) : Character :=
  Character.addAdvance { c with hp := c.hp + 1 } level "Gained an extra Hit Point slot"

/-- The `add_stress_slot` advancement (defined in the source but absent
from every archetype's action menu). -/
def addStressSlot (c : Character) (level : Nat) : Character :=
  Character.addAdvance { c with stress := c.stress + 1 } level "Gained an extra Stress slot"

/-- The `add_experience` advancement. -/
def addExperienceAct (c : Character) (arche : String) (level : Nat) : Character :=
  let new_exp := "Level " ++ toString level ++ " " ++ arche ++ " Experience"
  Character.addAdvance { c with experiences := c.experiences ++ [new_exp] } level
    ("Added experience: " ++ new_exp)

/-- The `add_evasion` advancement. -/
def addEvasionAct (c : Character) (level : Nat) : Character :=
  Character.addAdvance { c with evasion := c.evasion + 1 } level "Increased Evasion by +1"

/-- `take_subclass_upgrade`: grant "Specialization" once the level
reaches 5, then "Mastery" once it reaches 8, each at most once. -/
def takeSubclassUpgrade (c : Character) (level : Nat) : Character :=
  if truthyStr c.subclass ∧ 5 ≤ level then
    if "Specialization" ∉ c.subclass_upgrades then
      Character.addAdvance
        { c with subclass_upgrades := c.subclass_upgrades ++ ["Specialization"] } level
        ("Gained subclass specialization (" ++ optStr c.subclass ++ ")")
    else if "Mastery" ∉ c.subclass_upgrades ∧ 8 ≤ level then
      Character.addAdvance
        { c with subclass_upgrades := c.subclass_upgrades ++ ["Mastery"] } level
        ("Gained subclass mastery (" ++ optStr c.subclass ++ ")")
    else c
  else c

/-- The `add_domain_card_adv` advancement (may consume one random call
inside `pick_domain_card`). -/
def addDomainCardAdv (cards : List DomainCard) (g : RandSrc) (n : Nat)
    (c : Character) (archetype : String) (level : Nat) : Option (Character × Nat) :=
  (pickDomainCard cards g n c archetype level).bind fun rn =>
    if truthyStr rn.1 then
      some ((c.addDomainCard (rn.1.getD "")).addAdvance level
        ("Gained extra domain card: " ++ rn.1.getD ""), rn.2)
    else some (c, rn.2)

/-- The advancement closures of `perform_advancements`, as a tag type. -/
inductive AdvAction where
  | incTraits
  | hpSlot
  | stressSlot
  | experience
  | evasionUp
  | domainCardAdv
deriving DecidableEq, Inhabited

/-- Execute one advancement action. -/
def runAction (cards : List DomainCard) (g : RandSrc) (archetype : String)
    (level : Nat) : AdvAction → Character → Nat → Option (Character × Nat)
  | .incTraits, c, n => some (increaseTraits c level, n)
  | .hpSlot, c, n => some (addHpSlot c level, n)
  | .stressSlot, c, n => some (addStressSlot c level, n)
  | .experience, c, n => some (addExperienceAct c (pyTitle archetype) level, n)
  | .evasionUp, c, n => some (addEvasionAct c level, n)
  | .domainCardAdv, c, n => addDomainCardAdv cards g n c archetype level

/-- The archetype-specific action menus of `perform_advancements`. -/
def actionMenu (arche : String) : List AdvAction :=
  if arche = "Tank" then [.hpSlot, .evasionUp, .domainCardAdv, .incTraits]
  else if arche = "Damage" then [.incTraits, .domainCardAdv, .hpSlot]
  else if arche = "Sneaky" then [.incTraits, .evasionUp, .domainCardAdv]
  else if arche = "Support" ∨ arche = "Healer" then [.domainCardAdv, .incTraits, .experience]
  else if arche = "Face" then [.incTraits, .experience, .domainCardAdv]
  else if arche = "Control" then [.domainCardAdv, .experience, .incTraits]
  else [.incTraits, .domainCardAdv]

/-- `random.sample(actions, k=2)`: two distinct positions chosen via the
oracle (first uniform over the list, second uniform over the rest), so
every ordered pair of distinct actions is a possible outcome. -/
def sample2 (g : RandSrc) (n : Nat) (xs : List AdvAction) : List AdvAction × Nat :=
  let i := g n % xs.length
  let first := xs.getD i default
  let rest := xs.eraseIdx i
  let j := g (n + 1) % rest.length
  let second := rest.getD j default
  ([first, second], n + 2)

/-- Run a list of chosen advancement actions in order. -/
def runActions (cards : List DomainCard) (g : RandSrc) (archetype : String)
    (level : Nat) : List AdvAction → Character → Nat → Option (Character × Nat)
  | [], c, n => some (c, n)
  | act :: rest, c, n =>
    (runAction cards g archetype level act c n).bind fun p =>
      runActions cards g archetype level rest p.1 p.2

/-- `perform_advancements`: the always-run subclass-upgrade attempt
followed by two sampled advancement actions. -/
def performAdvancements (cards : List DomainCard) (g : RandSrc) (n : Nat)
    (c : Character) (archetype : String) (level : Nat) : Option (Character × Nat) :=
  let arche := pyTitle archetype
  let c := takeSubclassUpgrade c level
  let (chosen, n) := sample2 g n (actionMenu arche)
  runActions cards g archetype level chosen c n

/-- `apply_tier_achievements`: at levels 2, 5 and 8 bump proficiency,
add a tier experience and log; at 5 and 8 also log the trait-mark
clearing. -/
def applyTierAchievements (c : Character) (level : Nat) : Character :=
  if level = 2 ∨ level = 5 ∨ level = 8 then
    let c := { c with proficiency := c.proficiency + 1 }
    let c := c.addAdvance level "Increased Proficiency by +1 (tier achievement)"
    let new_exp := "Tier " ++ toString level ++ " Experience"
    let c := { c with experiences := c.experiences ++ [new_exp] }
    let c := c.addAdvance level ("Gained new experience: " ++ new_exp)
    if level = 5 ∨ level = 8 then
      c.addAdvance level "Cleared all marked traits (tier achievement)"
    else c
  else c

/-- `level_up`: tier achievements, two advancements, the +1 HP
threshold bump, then one domain-card acquisition. -/
def levelUp (cards : List DomainCard) (g : RandSrc) (n : Nat) (c : Character)
    (archetype : String) (level : Nat) : Option (Character × Nat) :=
  let c := applyTierAchievements c level
  (performAdvancements cards g n c archetype level).bind fun p =>
    let c := Character.addAdvance { p.1 with hp := p.1.hp + 1 } level
      "Damage thresholds increased (+1 HP)"
    (pickDomainCard cards g p.2 c archetype level).bind fun rn =>
      if truthyStr rn.1 then
        some ((c.addDomainCard (rn.1.getD "")).addAdvance level
          ("Acquired domain card: " ++ rn.1.getD ""), rn.2)
      else some (c, rn.2)

/-- The `for lvl in range(2, level + 1)` loop of `create_character`:
set the character's level, then run `level_up`, for each listed level. -/
def runLevels (cards : List DomainCard) (g : RandSrc) (archetype : String) :
    List Nat → Character → Nat → Option (Character × Nat)
  | [], c, n => some (c, n)
  | lvl :: rest, c, n =>
    (levelUp cards g n { c with level := lvl } archetype lvl).bind fun p =>
      runLevels cards g archetype rest p.1 p.2

/-- The character record as it stands just before the two starting
domain-card picks of `create_character`: the `Character(...)`
constructor call followed by the heritage, traits, `base_traits`,
experiences and (empty) equipment assignments, collapsed into one
record (the intermediate states are not observable). -/
def initChar (archetype_title : String) (ci : ClassInfo) (subclass_info : Subclass)
    (her : Heritage) (traits : List (String × Int)) (exps : List String) : Character :=
  { archetype := some archetype_title, char_class := some ci.name,
    subclass := some subclass_info.name, hp := ci.hp, evasion := ci.evasion,
    base_hp := ci.hp, base_evasion := ci.evasion, heritage := some her,
    traits := traits, base_traits := traits, experiences := exps, equipment := [] }

/-- The base-creation part of `create_character`: class info lookup,
initial `Character` record, heritage, traits, experiences, empty
equipment and the two starting level-1 domain cards (each added only
when the picked name is truthy, as in `if card:`). -/
def buildBase (cards : List DomainCard) (g : RandSrc) (archetype_title : String)
    (cls : String) (subclass_info : Subclass) (n : Nat) : Option (Character × Nat) :=
  (alookup CLASSES cls).bind fun ci =>
    let (her, n) := selectHeritage g n
    (assignTraits archetype_title (some cls) (some subclass_info)).bind fun traits =>
      (generateExperiences archetype_title ci.name).bind fun exps =>
        let char := initChar archetype_title ci subclass_info her traits exps
        (pickDomainCard cards g n char archetype_title 1).bind fun r1 =>
          let char := if truthyStr r1.1 then char.addDomainCard (r1.1.getD "") else char
          (pickDomainCard cards g r1.2 char archetype_title 1).bind fun r2 =>
            let char := if truthyStr r2.1 then char.addDomainCard (r2.1.getD "") else char
            some (char, r2.2)

/-- The subclass selection of `create_character` when a class name is
supplied: explicit subclass, else the archetype preference, else the
first subclass in the class definition. -/
def selectForClass (archetype_title cls : String) (subclass_name : Option String) :
    Option (String × Subclass) :=
  match subclass_name with
  | some sn => (alookup2 SUBCLASSES cls sn).bind fun si => some (cls, si)
  | none =>
    match alookup SUBCLASS_PREFERENCE (archetype_title, cls) with
    | some pref_name =>
      if pref_name ≠ "" then
        (alookup SUBCLASSES cls).bind fun subs =>
          match alookup subs pref_name with
          | some si => some (cls, si)
          | none =>
            (alookup CLASSES cls).bind fun ci =>
              (alookup2 SUBCLASSES cls ci.subclasses.1).bind fun si => some (cls, si)
      else
        (alookup CLASSES cls).bind fun ci =>
          (alookup2 SUBCLASSES cls ci.subclasses.1).bind fun si => some (cls, si)
    | none =>
      (alookup CLASSES cls).bind fun ci =>
        (alookup2 SUBCLASSES cls ci.subclasses.1).bind fun si => some (cls, si)

/-- `create_character`.  `none` models every raised exception: the
level-range `ValueError`, the unknown-archetype `ValueError` and the
`KeyError`s of catalog accesses. -/
def createCharacter (cards : List DomainCard) (g : RandSrc) (level : Nat)
    (archetype : String) (class_name : Option String)
    (subclass_name : Option String) : Option Character :=
  if 1 ≤ level ∧ level ≤ 10 then
    let archetype_title := pyTitle archetype
    let sel : Option ((String × Subclass) × Nat) :=
      match class_name with
      | none => chooseClassAndSubclass g 0 archetype_title
      | some cls =>
        (selectForClass archetype_title cls subclass_name).bind fun pair => some (pair, 0)
    sel.bind fun s =>
      (buildBase cards g archetype_title s.1.1 s.1.2 s.2).bind fun b =>
        (runLevels cards g archetype_title (List.range' 2 (level - 1)) b.1 b.2).bind fun r =>
          some r.1
  else none

lemma alookup_mem {κ : Type} [DecidableEq κ] {β : Type} :
    ∀ (l : List (κ × β)) (k : κ) (v : β), alookup l k = some v → (k, v) ∈ l := by
  intro l
  induction l with
  | nil => intro k v h; simp [alookup] at h
  | cons kv t ih =>
    intro k v h
    obtain ⟨k2, v2⟩ := kv
    simp only [alookup] at h
    by_cases hk : k2 = k
    · subst hk
      rw [if_pos rfl] at h
      cases h
      exact List.mem_cons_self _ _
    · rw [if_neg hk] at h
      exact List.mem_cons_of_mem _ (ih k v h)

lemma orderedTraits_length (pt : Option String) (order : List String) :
    (orderedTraits pt order).length = order.length := by
  cases pt with
  | none => rfl
  | some p =>
    simp only [orderedTraits]
    by_cases hc : p ≠ "" ∧ p ∈ order
    · rw [if_pos hc]
      have h1 := List.length_erase_of_mem hc.2
      have h2 : 1 ≤ order.length := List.length_pos.2 (List.ne_nil_of_mem hc.2)
      simp only [List.length_cons, h1]
      omega
    · rw [if_neg hc]

/-- Whatever primary trait is pulled to the front, `assign_traits`
distributes exactly the modifier array `[2, 1, 1, 0, 0, -1]` over the
six traits, in order. -/
lemma assignTraits_mods (arch : String) (cn : Option String) (sc : Option Subclass)
    (ts : List (String × Int)) (h : assignTraits arch cn sc = some ts) :
    ts.map Prod.snd = BASE_MODS := by
  simp only [assignTraits] at h
  cases hord : alookup TRAIT_PRIORITIES (pyTitle arch) with
  | none => rw [hord] at h; simp at h
  | some order =>
    rw [hord] at h
    simp only [Option.some.injEq] at h
    have hlen : order.length = 6 := by
      have hmem := alookup_mem TRAIT_PRIORITIES (pyTitle arch) order hord
      have hall : ∀ p ∈ TRAIT_PRIORITIES, (p.2).length = 6 := by decide
      exact hall _ hmem
    rw [← h]
    apply List.map_snd_zip
    rw [orderedTraits_length, hlen]
    rfl

lemma assignTraits_no_priorities (arch : String) (cn : Option String)
    (sc : Option Subclass) (h : alookup TRAIT_PRIORITIES (pyTitle arch) = none) :
    assignTraits arch cn sc = none := by
  simp [assignTraits, h]

/-- `build_base` fails as soon as `assign_traits` raises, i.e. whenever
the (already title-cased) archetype has no trait-priority entry. -/
lemma buildBase_none_of_no_priorities (cards : List DomainCard) (g : RandSrc)
    (archt cls : String) (si : Subclass) (n : Nat)
    (h : alookup TRAIT_PRIORITIES (pyTitle archt) = none) :
    buildBase cards g archt cls si n = none := by
  simp only [buildBase]
  cases hci : alookup CLASSES cls with
  | none => rfl
  | some ci =>
    simp [assignTraits_no_priorities archt (some cls) (some si) h]

lemma createCharacter_none_of_no_priorities (cards : List DomainCard) (g : RandSrc)
    (lvl : Nat) (arch : String) (cn sn : Option String)
    (h : alookup TRAIT_PRIORITIES (pyTitle (pyTitle arch)) = none) :
    createCharacter cards g lvl arch cn sn = none := by
  simp only [createCharacter]
  split
  · cases cn with
    | none =>
      cases hc : chooseClassAndSubclass g 0 (pyTitle arch) with
      | none => simp
      | some s =>
        obtain ⟨⟨cls, si⟩, n⟩ := s
        simp [buildBase_none_of_no_priorities cards g (pyTitle arch) cls si n h]
    | some cls =>
      cases hscl : selectForClass (pyTitle arch) cls sn with
      | none => simp [hscl]
      | some pair =>
        obtain ⟨pcls, psi⟩ := pair
        simp only [hscl, Option.some_bind]
        simp [buildBase_none_of_no_priorities cards g (pyTitle arch) pcls psi 0 h]
  · rfl

/-- Claim C1: contrary to the spec, the random-wildcard archetypes do
not produce a character at any level: after `choose_class_and_subclass`
succeeds, `assign_traits` raises `KeyError` because `TRAIT_PRIORITIES`
has no entry for "Random", "Any" or the empty string.  In the embedding
(where a raised exception is `none`) every such call returns `none`. -/
theorem C1_wildcard_archetypes_crash (cards : List DomainCard) (g : RandSrc) (lvl : Nat) :
    createCharacter cards g lvl "Random" none none = none ∧
    createCharacter cards g lvl "Any" none none = none ∧
    createCharacter cards g lvl "" none none = none :=
  ⟨createCharacter_none_of_no_priorities cards g lvl "Random" none none rfl,
   createCharacter_none_of_no_priorities cards g lvl "Any" none none rfl,
   createCharacter_none_of_no_priorities cards g lvl "" none none rfl⟩

@[simp] lemma addAdvance_level (c : Character) (l : Nat) (d : String) :
    (c.addAdvance l d).level = c.level := rfl

@[simp] lemma addAdvance_char_class (c : Character) (l : Nat) (d : String) :
    (c.addAdvance l d).char_class = c.char_class := rfl

@[simp] lemma addAdvance_subclass (c : Character) (l : Nat) (d : String) :
    (c.addAdvance l d).subclass = c.subclass := rfl

@[simp] lemma addAdvance_proficiency (c : Character) (l : Nat) (d : String) :
    (c.addAdvance l d).proficiency = c.proficiency := rfl

@[simp] lemma addAdvance_traits (c : Character) (l : Nat) (d : String) :
    (c.addAdvance l d).traits = c.traits := rfl

@[simp] lemma addAdvance_domain_cards (c : Character) (l : Nat) (d : String) :
    (c.addAdvance l d).domain_cards = c.domain_cards := rfl

@[simp] lemma addAdvance_subclass_upgrades (c : Character) (l : Nat) (d : String) :
    (c.addAdvance l d).subclass_upgrades = c.subclass_upgrades := rfl

@[simp] lemma addDomainCard_level (c : Character) (s : String) :
    (c.addDomainCard s).level = c.level := by
  unfold Character.addDomainCard; split <;> rfl

@[simp] lemma addDomainCard_char_class (c : Character) (s : String) :
    (c.addDomainCard s).char_class = c.char_class := by
  unfold Character.addDomainCard; split <;> rfl

@[simp] lemma addDomainCard_subclass (c : Character) (s : String) :
    (c.addDomainCard s).subclass = c.subclass := by
  unfold Character.addDomainCard; split <;> rfl

@[simp] lemma addDomainCard_proficiency (c : Character) (s : String) :
    (c.addDomainCard s).proficiency = c.proficiency := by
  unfold Character.addDomainCard; split <;> rfl

@[simp] lemma addDomainCard_traits (c : Character) (s : String) :
    (c.addDomainCard s).traits = c.traits := by
  unfold Character.addDomainCard; split <;> rfl

@[simp] lemma addDomainCard_subclass_upgrades (c : Character) (s : String) :
    (c.addDomainCard s).subclass_upgrades = c.subclass_upgrades := by
  unfold Character.addDomainCard; split <;> rfl

lemma addDomainCard_domain_cards (c : Character) (s : String) :
    (c.addDomainCard s).domain_cards =
      if s ∈ c.domain_cards then c.domain_cards else c.domain_cards ++ [s] := by
  unfold Character.addDomainCard; split <;> simp [*]

@[simp] lemma increaseTraitsOnce_level (c : Character) :
    (increaseTraitsOnce c).level = c.level := by
  unfold increaseTraitsOnce; split <;> rfl

@[simp] lemma increaseTraitsOnce_char_class (c : Character) :
    (increaseTraitsOnce c).char_class = c.char_class := by
  unfold increaseTraitsOnce; split <;> rfl

@[simp] lemma increaseTraitsOnce_subclass (c : Character) :
    (increaseTraitsOnce c).subclass = c.subclass := by
  unfold increaseTraitsOnce; split <;> rfl

@[simp] lemma increaseTraitsOnce_proficiency (c : Character) :
    (increaseTraitsOnce c).proficiency = c.proficiency := by
  unfold increaseTraitsOnce; split <;> rfl

@[simp] lemma increaseTraitsOnce_domain_cards (c : Character) :
    (increaseTraitsOnce c).domain_cards = c.domain_cards := by
  unfold increaseTraitsOnce; split <;> rfl

@[simp] lemma increaseTraitsOnce_subclass_upgrades (c : Character) :
    (increaseTraitsOnce c).subclass_upgrades = c.subclass_upgrades := by
  unfold increaseTraitsOnce; split <;> rfl

@[simp] lemma increaseTraits_level (c : Character) (l : Nat) :
    (increaseTraits c l).level = c.level := by simp [increaseTraits]

@[simp] lemma increaseTraits_char_class (c : Character) (l : Nat) :
    (increaseTraits c l).char_class = c.char_class := by simp [increaseTraits]

@[simp] lemma increaseTraits_subclass (c : Character) (l : Nat) :
    (increaseTraits c l).subclass = c.subclass := by simp [increaseTraits]

@[simp] lemma increaseTraits_proficiency (c : Character) (l : Nat) :
    (increaseTraits c l).proficiency = c.proficiency := by simp [increaseTraits]

@[simp] lemma increaseTraits_domain_cards (c : Character) (l : Nat) :
    (increaseTraits c l).domain_cards = c.domain_cards := by simp [increaseTraits]

@[simp] lemma increaseTraits_subclass_upgrades (c : Character) (l : Nat) :
    (increaseTraits c l).subclass_upgrades = c.subclass_upgrades := by simp [increaseTraits]

@[simp] lemma addHpSlot_fields (c : Character) (l : Nat) :
    (addHpSlot c l).level = c.level ∧ (addHpSlot c l).char_class = c.char_class ∧
    (addHpSlot c l).subclass = c.subclass ∧ (addHpSlot c l).proficiency = c.proficiency ∧
    (addHpSlot c l).traits = c.traits ∧ (addHpSlot c l).domain_cards = c.domain_cards ∧
    (addHpSlot c l).subclass_upgrades = c.subclass_upgrades :=
  ⟨rfl, rfl, rfl, rfl, rfl, rfl, rfl⟩

@[simp] lemma addStressSlot_fields (c : Character) (l : Nat) :
    (addStressSlot c l).level = c.level ∧ (addStressSlot c l).char_class = c.char_class ∧
    (addStressSlot c l).subclass = c.subclass ∧
    (addStressSlot c l).proficiency = c.proficiency ∧
    (addStressSlot c l).traits = c.traits ∧
    (addStressSlot c l).domain_cards = c.domain_cards ∧
    (addStressSlot c l).subclass_upgrades = c.subclass_upgrades :=
  ⟨rfl, rfl, rfl, rfl, rfl, rfl, rfl⟩

@[simp] lemma addExperienceAct_fields (c : Character) (a : String) (l : Nat) :
    (addExperienceAct c a l).level = c.level ∧
    (addExperienceAct c a l).char_class = c.char_class ∧
    (addExperienceAct c a l).subclass = c.subclass ∧
    (addExperienceAct c a l).proficiency = c.proficiency ∧
    (addExperienceAct c a l).traits = c.traits ∧
    (addExperienceAct c a l).domain_cards = c.domain_cards ∧
    (addExperienceAct c a l).subclass_upgrades = c.subclass_upgrades :=
  ⟨rfl, rfl, rfl, rfl, rfl, rfl, rfl⟩

@[simp] lemma addEvasionAct_fields (c : Character) (l : Nat) :
    (addEvasionAct c l).level = c.level ∧ (addEvasionAct c l).char_class = c.char_class ∧
    (addEvasionAct c l).subclass = c.subclass ∧
    (addEvasionAct c l).proficiency = c.proficiency ∧
    (addEvasionAct c l).traits = c.traits ∧
    (addEvasionAct c l).domain_cards = c.domain_cards ∧
    (addEvasionAct c l).subclass_upgrades = c.subclass_upgrades :=
  ⟨rfl, rfl, rfl, rfl, rfl, rfl, rfl⟩

@[simp] lemma takeSubclassUpgrade_level (c : Character) (l : Nat) :
    (takeSubclassUpgrade c l).level = c.level := by
  unfold takeSubclassUpgrade; split <;> [split; rfl]
  · rfl
  · split <;> rfl

@[simp] lemma takeSubclassUpgrade_char_class (c : Character) (l : Nat) :
    (takeSubclassUpgrade c l).char_class = c.char_class := by
  unfold takeSubclassUpgrade; split <;> [split; rfl]
  · rfl
  · split <;> rfl

@[simp] lemma takeSubclassUpgrade_subclass (c : Character) (l : Nat) :
    (takeSubclassUpgrade c l).subclass = c.subclass := by
  unfold takeSubclassUpgrade; split <;> [split; rfl]
  · rfl
  · split <;> rfl

@[simp] lemma takeSubclassUpgrade_proficiency (c : Character) (l : Nat) :
    (takeSubclassUpgrade c l).proficiency = c.proficiency := by
  unfold takeSubclassUpgrade; split <;> [split; rfl]
  · rfl
  · split <;> rfl

@[simp] lemma takeSubclassUpgrade_traits (c : Character) (l : Nat) :
    (takeSubclassUpgrade c l).traits = c.traits := by
  unfold takeSubclassUpgrade; split <;> [split; rfl]
  · rfl
  · split <;> rfl

@[simp] lemma takeSubclassUpgrade_domain_cards (c : Character) (l : Nat) :
    (takeSubclassUpgrade c l).domain_cards = c.domain_cards := by
  unfold takeSubclassUpgrade; split <;> [split; rfl]
  · rfl
  · split <;> rfl

@[simp] lemma applyTierAchievements_level (c : Character) (l : Nat) :
    (applyTierAchievements c l).level = c.level := by
  unfold applyTierAchievements; split <;> [split; rfl] <;> rfl

@[simp] lemma applyTierAchievements_char_class (c : Character) (l : Nat) :
    (applyTierAchievements c l).char_class = c.char_class := by
  unfold applyTierAchievements; split <;> [split; rfl] <;> rfl

@[simp] lemma applyTierAchievements_subclass (c : Character) (l : Nat) :
    (applyTierAchievements c l).subclass = c.subclass := by
  unfold applyTierAchievements; split <;> [split; rfl] <;> rfl

@[simp] lemma applyTierAchievements_traits (c : Character) (l : Nat) :
    (applyTierAchievements c l).traits = c.traits := by
  unfold applyTierAchievements; split <;> [split; rfl] <;> rfl

@[simp] lemma applyTierAchievements_domain_cards (c : Character) (l : Nat) :
    (applyTierAchievements c l).domain_cards = c.domain_cards := by
  unfold applyTierAchievements; split <;> [split; rfl] <;> rfl

@[simp] lemma applyTierAchievements_subclass_upgrades (c : Character) (l : Nat) :
    (applyTierAchievements c l).subclass_upgrades = c.subclass_upgrades := by
  unfold applyTierAchievements; split <;> [split; rfl] <;> rfl

lemma applyTierAchievements_proficiency (c : Character) (l : Nat) :
    (applyTierAchievements c l).proficiency =
      c.proficiency + (if l = 2 ∨ l = 5 ∨ l = 8 then 1 else 0) := by
  unfold applyTierAchievements
  split
  · split <;> simp
  · simp [*]

/-- The character's class is a valid catalog key (always true for
characters built by `create_character`). -/
def validClass (c : Character) : Prop :=
  ∃ cls ci, c.char_class = some cls ∧ alookup CLASSES cls = some ci

lemma pickDomainCard_isSome (cards : List DomainCard) (g : RandSrc) (n : Nat)
    (c : Character) (arch : String) (lvl : Nat) (hv : validClass c) :
    ∃ r n2, pickDomainCard cards g n c arch lvl = some (r, n2) := by
  obtain ⟨cls, ci, hcls, hci⟩ := hv
  simp only [pickDomainCard, hcls, hci, Option.some_bind]
  split
  · exact ⟨none, n, rfl⟩
  · exact ⟨_, _, rfl⟩

lemma runAction_spec (cards : List DomainCard) (g : RandSrc) (arch : String)
    (lvl : Nat) (act : AdvAction) (c : Character) (n : Nat) (hv : validClass c) :
    ∃ c2 n2, runAction cards g arch lvl act c n = some (c2, n2) ∧
      c2.level = c.level ∧ c2.char_class = c.char_class ∧ c2.subclass = c.subclass ∧
      c2.proficiency = c.proficiency ∧ c2.subclass_upgrades = c.subclass_upgrades := by
  cases act with
  | incTraits => exact ⟨_, _, rfl, by simp⟩
  | hpSlot => exact ⟨_, _, rfl, by simp⟩
  | stressSlot => exact ⟨_, _, rfl, by simp⟩
  | experience => exact ⟨_, _, rfl, by simp⟩
  | evasionUp => exact ⟨_, _, rfl, by simp⟩
  | domainCardAdv =>
    obtain ⟨r, n2, hp⟩ := pickDomainCard_isSome cards g n c arch lvl hv
    by_cases ht : truthyStr r = true
    · exact ⟨(c.addDomainCard (r.getD "")).addAdvance lvl
        ("Gained extra domain card: " ++ r.getD ""), n2,
        by simp [runAction, addDomainCardAdv, hp, ht], by simp⟩
    · exact ⟨c, n2, by simp [runAction, addDomainCardAdv, hp, ht], by simp⟩

lemma runActions_spec (cards : List DomainCard) (g : RandSrc) (arch : String)
    (lvl : Nat) : ∀ (acts : List AdvAction) (c : Character) (n : Nat), validClass c →
    ∃ c2 n2, runActions cards g arch lvl acts c n = some (c2, n2) ∧
      c2.level = c.level ∧ c2.char_class = c.char_class ∧ c2.subclass = c.subclass ∧
      c2.proficiency = c.proficiency ∧ c2.subclass_upgrades = c.subclass_upgrades := by
  intro acts
  induction acts with
  | nil => intro c n _; exact ⟨c, n, rfl, rfl, rfl, rfl, rfl, rfl⟩
  | cons act rest ih =>
    intro c n hv
    obtain ⟨c1, n1, h1, hl1, hc1, hs1, hp1, hu1⟩ := runAction_spec cards g arch lvl act c n hv
    have hv1 : validClass c1 := by
      obtain ⟨cls, ci, hcls, hci⟩ := hv
      exact ⟨cls, ci, hc1 ▸ hcls, hci⟩
    obtain ⟨c2, n2, h2, hl2, hc2, hs2, hp2, hu2⟩ := ih c1 n1 hv1
    refine ⟨c2, n2, ?_, ?_, ?_, ?_, ?_, ?_⟩
    · simp only [runActions, h1, Option.some_bind, h2]
    · rw [hl2, hl1]
    · rw [hc2, hc1]
    · rw [hs2, hs1]
    · rw [hp2, hp1]
    · rw [hu2, hu1]

lemma performAdvancements_spec (cards : List DomainCard) (g : RandSrc) (n : Nat)
    (c : Character) (arch : String) (lvl : Nat) (hv : validClass c) :
    ∃ c2 n2, performAdvancements cards g n c arch lvl = some (c2, n2) ∧
      c2.level = c.level ∧ c2.char_class = c.char_class ∧ c2.subclass = c.subclass ∧
      c2.proficiency = c.proficiency ∧
      c2.subclass_upgrades = (takeSubclassUpgrade c lvl).subclass_upgrades := by
  have hv1 : validClass (takeSubclassUpgrade c lvl) := by
    obtain ⟨cls, ci, hcls, hci⟩ := hv
    exact ⟨cls, ci, by simp [hcls], hci⟩
  obtain ⟨c2, n2, h2, hl2, hc2, hs2, hp2, hu2⟩ := runActions_spec cards g arch lvl
    (sample2 g n (actionMenu (pyTitle arch))).1 (takeSubclassUpgrade c lvl)
    (sample2 g n (actionMenu (pyTitle arch))).2 hv1
  refine ⟨c2, n2, ?_, by simp [hl2], by simp [hc2], by simp [hs2], by simp [hp2], hu2⟩
  simp only [performAdvancements]
  exact h2

lemma levelUp_spec (cards : List DomainCard) (g : RandSrc) (n : Nat) (c : Character)
    (arch : String) (lvl : Nat) (hv : validClass c) :
    ∃ c2 n2, levelUp cards g n c arch lvl = some (c2, n2) ∧
      c2.level = c.level ∧ c2.char_class = c.char_class ∧ c2.subclass = c.subclass ∧
      c2.proficiency = c.proficiency + (if lvl = 2 ∨ lvl = 5 ∨ lvl = 8 then 1 else 0) ∧
      c2.subclass_upgrades
        = (takeSubclassUpgrade (applyTierAchievements c lvl) lvl).subclass_upgrades := by
  have hvt : validClass (applyTierAchievements c lvl) := by
    obtain ⟨cls, ci, hcls, hci⟩ := hv
    exact ⟨cls, ci, by simp [hcls], hci⟩
  obtain ⟨c1, n1, h1, hl1, hc1, hs1, hp1, hu1⟩ :=
    performAdvancements_spec cards g n (applyTierAchievements c lvl) arch lvl hvt
  set cmid := Character.addAdvance { c1 with hp := c1.hp + 1 } lvl
    "Damage thresholds increased (+1 HP)" with hcmid
  have hvmid : validClass cmid := by
    obtain ⟨cls, ci, hcls, hci⟩ := hv
    refine ⟨cls, ci, ?_, hci⟩
    simp [hcmid, hc1, hcls]
  obtain ⟨r, n2, hp2⟩ := pickDomainCard_isSome cards g n1 cmid arch lvl hvmid
  have hfields : cmid.level = c.level ∧ cmid.char_class = c.char_class ∧
      cmid.subclass = c.subclass ∧
      cmid.proficiency = c.proficiency + (if lvl = 2 ∨ lvl = 5 ∨ lvl = 8 then 1 else 0) := by
    refine ⟨?_, ?_, ?_, ?_⟩
    · simp [hcmid, hl1]
    · simp [hcmid, hc1]
    · simp [hcmid, hs1]
    · simp [hcmid, hp1, applyTierAchievements_proficiency]
  have hupg : cmid.subclass_upgrades
      = (takeSubclassUpgrade (applyTierAchievements c lvl) lvl).subclass_upgrades := by
    simp [hcmid, hu1]
  by_cases ht : truthyStr r = true
  · refine ⟨(cmid.addDomainCard (r.getD "")).addAdvance lvl
      ("Acquired domain card: " ++ r.getD ""), n2,
      by simp [levelUp, h1, hp2, hcmid, ht], ?_, ?_, ?_, ?_, ?_⟩
    · simp [hfields.1]
    · simp [hfields.2.1]
    · simp [hfields.2.2.1]
    · simp [hfields.2.2.2]
    · simp [hupg]
  · exact ⟨cmid, n2, by simp [levelUp, h1, hp2, hcmid, ht], hfields.1, hfields.2.1,
      hfields.2.2.1, hfields.2.2.2, hupg⟩

/-- The number of tier levels in a list (a level-up at each of 2, 5, 8
bumps proficiency by one). -/
def tierCount (ls : List Nat) : Nat :=
  ls.countP (fun l => decide (l = 2 ∨ l = 5 ∨ l = 8))

lemma runLevels_spec (cards : List DomainCard) (g : RandSrc) (arch : String) :
    ∀ (ls : List Nat) (c : Character) (n : Nat), validClass c →
    ∃ c2 n2, runLevels cards g arch ls c n = some (c2, n2) ∧
      c2.char_class = c.char_class ∧ c2.subclass = c.subclass ∧
      c2.proficiency = c.proficiency + tierCount ls := by
  intro ls
  induction ls with
  | nil => intro c n _; exact ⟨c, n, rfl, rfl, rfl, by simp [tierCount]⟩
  | cons lvl rest ih =>
    intro c n hv
    have hv0 : validClass { c with level := lvl } := by
      obtain ⟨cls, ci, hcls, hci⟩ := hv
      exact ⟨cls, ci, hcls, hci⟩
    obtain ⟨c1, n1, h1, _, hc1, hs1, hp1, _⟩ :=
      levelUp_spec cards g n { c with level := lvl } arch lvl hv0
    have hv1 : validClass c1 := by
      obtain ⟨cls, ci, hcls, hci⟩ := hv
      exact ⟨cls, ci, by rw [hc1]; exact hcls, hci⟩
    obtain ⟨c2, n2, h2, hc2, hs2, hp2⟩ := ih c1 n1 hv1
    refine ⟨c2, n2, ?_, ?_, ?_, ?_⟩
    · simp only [runLevels, h1, Option.some_bind, h2]
    · rw [hc2, hc1]
    · rw [hs2, hs1]
    · rw [hp2, hp1]
      simp only [tierCount, List.countP_cons]
      by_cases htier : lvl = 2 ∨ lvl = 5 ∨ lvl = 8
      · simp only [htier, if_true, decide_eq_true_eq, if_pos htier]
        omega
      · simp only [htier, if_false, decide_eq_true_eq, if_neg htier]
        omega

/-- Inversion of a successful `build_base`: the freshly built character
records the looked-up class and the given subclass, is at level 1 with
proficiency 1 and no subclass upgrades, and carries the trait map
produced by `assign_traits`. -/
lemma buildBase_inv (cards : List DomainCard) (g : RandSrc) (archt cls : String)
    (si : Subclass) (n : Nat) (ch : Character) (n2 : Nat)
    (h : buildBase cards g archt cls si n = some (ch, n2)) :
    ∃ ci ts, alookup CLASSES cls = some ci ∧
      assignTraits archt (some cls) (some si) = some ts ∧
      ch.char_class = some ci.name ∧ ch.subclass = some si.name ∧
      ch.level = 1 ∧ ch.proficiency = 1 ∧ ch.subclass_upgrades = [] ∧
      ch.traits = ts := by
  simp only [buildBase, Option.bind_eq_some] at h
  obtain ⟨ci, hci, ts, hts, exps, hexp, r1, hp1, r2, hp2, hsome⟩ := h
  rw [Option.some.injEq, Prod.mk.injEq] at hsome
  obtain ⟨hch, hn⟩ := hsome
  subst hch
  refine ⟨ci, ts, hci, hts, ?_⟩
  by_cases ht1 : truthyStr r1.1 = true <;> by_cases ht2 : truthyStr r2.1 = true <;>
    simp [ht1, ht2, initChar]

/-- Inversion of a successful `create_character` into its three stages:
class/subclass selection, base creation, and the level-up loop. -/
lemma createCharacter_inv (cards : List DomainCard) (g : RandSrc) (lvl : Nat)
    (arch : String) (cn sn : Option String) (c : Character)
    (h : createCharacter cards g lvl arch cn sn = some c) :
    ∃ cls si n ch n2 n3,
      (match cn with
       | none => chooseClassAndSubclass g 0 (pyTitle arch)
       | some cls0 => (selectForClass (pyTitle arch) cls0 sn).bind fun pair => some (pair, 0))
        = some ((cls, si), n) ∧
      buildBase cards g (pyTitle arch) cls si n = some (ch, n2) ∧
      runLevels cards g (pyTitle arch) (List.range' 2 (lvl - 1)) ch n2 = some (c, n3) := by
  simp only [createCharacter] at h
  split at h
  · simp only [Option.bind_eq_some] at h
    obtain ⟨s, hs, b, hb, r, hr, hc⟩ := h
    rw [Option.some.injEq] at hc
    subst hc
    exact ⟨s.1.1, s.1.2, s.2, b.1, b.2, r.2, hs, hb, hr⟩
  · exact absurd h (by simp)

/-- Trait values sorted in descending order. -/
def sortedDesc (l : List Int) : List Int := l.insertionSort (fun a b => b ≤ a)

/-- Counterexample to claim C2: at level 2 with archetype "Damage" and
the all-zeros random outcome, the sampled advancements include
`increase_traits`, which bumps the two lowest traits, so the final
multiset is {2, 1, 1, 1, 0, 0} instead of {2, 1, 1, 0, 0, -1}. -/
theorem C2_counterexample_level2_damage :
    ((createCharacter [] (fun _ => 0) 2 "Damage" none none).map
        (fun c => sortedDesc (c.traits.map Prod.snd)) = some [2, 1, 1, 1, 0, 0]) ∧
    (some [2, 1, 1, 1, 0, 0] : Option (List Int)) ≠ some [2, 1, 1, 0, 0, -1] := by
  constructor
  · rfl
  · decide

/-- Claim C2 (amended): the multiset {+2, +1, +1, 0, 0, -1} is exactly
the trait assignment of a freshly created character (level 1, any
archetype, any random outcome); from level 2 on the `increase_traits`
advancement may raise traits, so the multiset is not preserved. -/
theorem C2_traits_multiset_at_creation (cards : List DomainCard) (g : RandSrc)
    (arch : String) (cn sn : Option String) (c : Character)
    (h : createCharacter cards g 1 arch cn sn = some c) :
    sortedDesc (c.traits.map Prod.snd) = [2, 1, 1, 0, 0, -1] := by
  obtain ⟨cls, si, n, ch, n2, n3, hsel, hbb, hrl⟩ :=
    createCharacter_inv cards g 1 arch cn sn c h
  obtain ⟨ci, ts, hci, hts, hcc, hsc, hlv, hpr, hug, htr⟩ :=
    buildBase_inv cards g (pyTitle arch) cls si n ch n2 hbb
  have hch : ch = c := by
    have hnil : runLevels cards g (pyTitle arch) [] ch n2 = some (ch, n2) := rfl
    rw [show List.range' 2 (1 - 1) = [] from rfl] at hrl
    rw [hnil] at hrl
    exact (Prod.mk.injEq .. ▸ Option.some.injEq .. ▸ hrl).1
  rw [← hch, htr, assignTraits_mods (pyTitle arch) (some cls) (some si) ts hts]
  decide

/-- A concrete character: level-1 Tank generation under the all-zeros
random outcome (a Stalwart Guardian). -/
def sampleTank : Character :=
  (createCharacter [] (fun _ => 0) 1 "Tank" none none).getD {}

/-- Witness for the amended C2 at a concrete creation. -/
theorem C2_traits_multiset_at_creation_witness :
    sortedDesc (sampleTank.traits.map Prod.snd) = [2, 1, 1, 0, 0, -1] :=
  C2_traits_multiset_at_creation [] (fun _ => 0) "Tank" none none sampleTank rfl

lemma CLASSES_name_eq_key (k : String) (ci : ClassInfo)
    (h : alookup CLASSES k = some ci) : ci.name = k := by
  have hall : ∀ p ∈ CLASSES, (p.2).name = p.1 := by decide
  exact hall (k, ci) (alookup_mem CLASSES k ci h)

/-- `build_base` always succeeds once the class lookup, the trait
assignment and the experience generation succeed (the domain-card picks
cannot fail for a valid class). -/
lemma buildBase_isSome (cards : List DomainCard) (g : RandSrc) (archt cls : String)
    (si : Subclass) (n : Nat) (ci : ClassInfo) (ts : List (String × Int))
    (exps : List String)
    (hci : alookup CLASSES cls = some ci)
    (hts : assignTraits archt (some cls) (some si) = some ts)
    (hexp : generateExperiences archt ci.name = some exps) :
    ∃ p, buildBase cards g archt cls si n = some p := by
  have hciname : alookup CLASSES ci.name = some ci := by
    rw [CLASSES_name_eq_key cls ci hci]
    exact hci
  simp only [buildBase, hci, hts, hexp, Option.some_bind]
  obtain ⟨r1, m1, hp1⟩ := pickDomainCard_isSome cards g (selectHeritage g n).2
    (initChar archt ci si (selectHeritage g n).1 ts exps) archt 1
    ⟨ci.name, ci, rfl, hciname⟩
  rw [hp1]
  simp only [Option.some_bind]
  by_cases ht1 : truthyStr r1 = true
  · rw [if_pos ht1]
    obtain ⟨r2, m2, hp2⟩ := pickDomainCard_isSome cards g m1
      (Character.addDomainCard (initChar archt ci si (selectHeritage g n).1 ts exps)
        (r1.getD "")) archt 1 ⟨ci.name, ci, by simp [initChar], hciname⟩
    rw [hp2]
    exact ⟨_, rfl⟩
  · rw [if_neg ht1]
    obtain ⟨r2, m2, hp2⟩ := pickDomainCard_isSome cards g m1
      (initChar archt ci si (selectHeritage g n).1 ts exps) archt 1
      ⟨ci.name, ci, rfl, hciname⟩
    rw [hp2]
    exact ⟨_, rfl⟩

/-- Claim C5: `create_character(10, "Control", "Wizard", "School of War")`
always succeeds, keeps the explicitly supplied class and subclass, and
ends with proficiency 4 (base 1 plus the tier bumps at levels 2, 5, 8),
for every outcome of the random source (and any compendium). -/
theorem C5_explicit_wizard_school_of_war (cards : List DomainCard) (g : RandSrc) :
    ∃ c, createCharacter cards g 10 "Control" (some "Wizard") (some "School of War")
        = some c ∧
      c.char_class = some "Wizard" ∧ c.subclass = some "School of War" ∧
      c.proficiency = 4 := by
  obtain ⟨p, hbb⟩ := buildBase_isSome cards g (pyTitle "Control") "Wizard"
    ((alookup2 SUBCLASSES "Wizard" "School of War").getD default) 0
    ((alookup CLASSES "Wizard").getD default)
    ((assignTraits (pyTitle "Control") (some "Wizard")
      (some ((alookup2 SUBCLASSES "Wizard" "School of War").getD default))).getD [])
    ((generateExperiences (pyTitle "Control")
      ((alookup CLASSES "Wizard").getD default).name).getD [])
    rfl rfl rfl
  obtain ⟨ci, ts, hci, hts, hcc, hsc, hlv, hpr, hug, htr⟩ :=
    buildBase_inv cards g (pyTitle "Control") "Wizard"
      ((alookup2 SUBCLASSES "Wizard" "School of War").getD default) 0 p.1 p.2
      (by rw [← hbb])
  have hciw : ci = (alookup CLASSES "Wizard").getD default := by
    have hw : alookup CLASSES "Wizard"
        = some ((alookup CLASSES "Wizard").getD default) := rfl
    rw [hw] at hci
    exact (Option.some.injEq .. ▸ hci).symm
  obtain ⟨c2, n2, hrl, hc2c, hc2s, hc2p⟩ := runLevels_spec cards g (pyTitle "Control")
    (List.range' 2 9) p.1 p.2
    ⟨ci.name, ci, hcc, by rw [CLASSES_name_eq_key "Wizard" ci hci]; exact hci⟩
  have hred : createCharacter cards g 10 "Control" (some "Wizard") (some "School of War")
      = (buildBase cards g (pyTitle "Control") "Wizard"
          ((alookup2 SUBCLASSES "Wizard" "School of War").getD default) 0).bind
          (fun b => (runLevels cards g (pyTitle "Control") (List.range' 2 9) b.1 b.2).bind
            fun r => some r.1) := rfl
  refine ⟨c2, ?_, ?_, ?_, ?_⟩
  · rw [hred, hbb, Option.some_bind, hrl, Option.some_bind]
  · rw [hc2c, hcc, hciw]; rfl
  · rw [hc2s, hsc]; rfl
  · rw [hc2p, hpr]; rfl

/-- The subclass-upgrade invariant: each of the two upgrades occurs at
most once, and can only be present once the character's level has
reached its threshold. -/
def upgOK (c : Character) : Prop :=
  ("Specialization" ∈ c.subclass_upgrades → 5 ≤ c.level) ∧
  ("Mastery" ∈ c.subclass_upgrades → 8 ≤ c.level) ∧
  c.subclass_upgrades.count "Specialization" ≤ 1 ∧
  c.subclass_upgrades.count "Mastery" ≤ 1

lemma upgOK_of_eq (c c2 : Character) (h : upgOK c)
    (hu : c2.subclass_upgrades = c.subclass_upgrades) (hl : c2.level = c.level) :
    upgOK c2 := by
  obtain ⟨h5, h8, hcs, hcm⟩ := h
  exact ⟨by rw [hu, hl]; exact h5, by rw [hu, hl]; exact h8,
    by rw [hu]; exact hcs, by rw [hu]; exact hcm⟩

lemma upgOK_set_level (c : Character) (m : Nat) (h : upgOK c) (hle : c.level ≤ m) :
    upgOK { c with level := m } := by
  obtain ⟨h5, h8, hcs, hcm⟩ := h
  exact ⟨fun hm => le_trans (h5 hm) hle, fun hm => le_trans (h8 hm) hle, hcs, hcm⟩

lemma takeSubclassUpgrade_upgOK (c : Character) (lvl : Nat) (hl : c.level = lvl)
    (h : upgOK c) : upgOK (takeSubclassUpgrade c lvl) := by
  obtain ⟨h5, h8, hcs, hcm⟩ := h
  unfold takeSubclassUpgrade
  split
  next hcond =>
    obtain ⟨htru, h5le⟩ := hcond
    split
    next hns =>
      refine ⟨?_, ?_, ?_, ?_⟩
      · intro _
        simpa [hl] using h5le
      · intro hm
        simp only [addAdvance_subclass_upgrades, addAdvance_level] at hm ⊢
        have hmem2 : "Mastery" ∈ c.subclass_upgrades := by
          rcases List.mem_append.1 hm with hmem | hmem
          · exact hmem
          · simp at hmem
        exact h8 hmem2
      · simp only [addAdvance_subclass_upgrades]
        rw [List.count_append]
        have hz : c.subclass_upgrades.count "Specialization" = 0 :=
          List.count_eq_zero.2 hns
        simp [hz]
      · simp only [addAdvance_subclass_upgrades]
        rw [List.count_append]
        simpa using hcm
    next hns =>
      split
      next hcond2 =>
        obtain ⟨hnm, h8le⟩ := hcond2
        refine ⟨?_, ?_, ?_, ?_⟩
        · intro _
          have h58 : (5 : Nat) ≤ 8 := by omega
          simpa [hl] using le_trans h58 h8le
        · intro _
          simpa [hl] using h8le
        · simp only [addAdvance_subclass_upgrades]
          rw [List.count_append]
          simpa using hcs
        · simp only [addAdvance_subclass_upgrades]
          rw [List.count_append]
          have hz : c.subclass_upgrades.count "Mastery" = 0 :=
            List.count_eq_zero.2 hnm
          simp [hz]
      next => exact ⟨h5, h8, hcs, hcm⟩
  next => exact ⟨h5, h8, hcs, hcm⟩

/-- The list of levels processed by the level-up loop is a weakly
increasing chain above the character's current level. -/
def incr : Nat → List Nat → Prop
  | _, [] => True
  | b, l :: ls => b ≤ l ∧ incr l ls

lemma incr_range' (m : Nat) : ∀ k, incr m (List.range' (m + 1) k) := by
  intro k
  induction k generalizing m with
  | zero => trivial
  | succ k ih =>
    rw [List.range'_succ]
    exact ⟨Nat.le_succ m, ih (m + 1)⟩

lemma runLevels_upgOK (cards : List DomainCard) (g : RandSrc) (arch : String) :
    ∀ (ls : List Nat) (c : Character) (n : Nat) (c2 : Character) (n2 : Nat),
    validClass c → incr c.level ls → upgOK c →
    runLevels cards g arch ls c n = some (c2, n2) → upgOK c2 := by
  intro ls
  induction ls with
  | nil =>
    intro c n c2 n2 _ _ hup h
    simp only [runLevels, Option.some.injEq, Prod.mk.injEq] at h
    exact h.1 ▸ hup
  | cons lvl rest ih =>
    intro c n c2 n2 hv hincr hup h
    obtain ⟨hle, hincr2⟩ := hincr
    have hv0 : validClass { c with level := lvl } := by
      obtain ⟨cls, ci, hcls, hci⟩ := hv
      exact ⟨cls, ci, hcls, hci⟩
    obtain ⟨c1, n1, heq, hl1, hc1, hs1, hp1, hu1⟩ :=
      levelUp_spec cards g n { c with level := lvl } arch lvl hv0
    simp only [runLevels, heq, Option.some_bind] at h
    have hupl : upgOK { c with level := lvl } := upgOK_set_level c lvl hup hle
    have hupt : upgOK
        (takeSubclassUpgrade (applyTierAchievements { c with level := lvl } lvl) lvl) := by
      refine takeSubclassUpgrade_upgOK _ lvl (by simp) ?_
      exact upgOK_of_eq _ _ hupl (by simp) (by simp)
    have hup1 : upgOK c1 := by
      refine upgOK_of_eq _ _ hupt hu1 ?_
      simp [hl1]
    have hv1 : validClass c1 := by
      obtain ⟨cls, ci, hcls, hci⟩ := hv
      exact ⟨cls, ci, by rw [hc1]; exact hcls, hci⟩
    have hincr1 : incr c1.level rest := by
      have hc1l : c1.level = lvl := by simp [hl1]
      rw [hc1l]
      exact hincr2
    exact ih c1 n1 c2 n2 hv1 hincr1 hup1 h

/-- Claim C7: for every generated character and every random outcome,
"Specialization" appears in `subclass_upgrades` only if the final level
is at least 5, "Mastery" only if it is at least 8, and each entry
appears at most once. -/
theorem C7_subclass_upgrade_gating (cards : List DomainCard) (g : RandSrc) (lvl : Nat)
    (arch : String) (cn sn : Option String) (c : Character)
    (h : createCharacter cards g lvl arch cn sn = some c) :
    ("Specialization" ∈ c.subclass_upgrades → 5 ≤ c.level) ∧
    ("Mastery" ∈ c.subclass_upgrades → 8 ≤ c.level) ∧
    c.subclass_upgrades.count "Specialization" ≤ 1 ∧
    c.subclass_upgrades.count "Mastery" ≤ 1 := by
  obtain ⟨cls, si, n, ch, n2, n3, hsel, hbb, hrl⟩ :=
    createCharacter_inv cards g lvl arch cn sn c h
  obtain ⟨ci, ts, hci, hts, hcc, hsc, hlv, hpr, hug, htr⟩ :=
    buildBase_inv cards g (pyTitle arch) cls si n ch n2 hbb
  have hv : validClass ch :=
    ⟨ci.name, ci, hcc, by rw [CLASSES_name_eq_key cls ci hci]; exact hci⟩
  have hup : upgOK ch := by
    refine ⟨?_, ?_, ?_, ?_⟩ <;> simp [hug]
  have hincr : incr ch.level (List.range' 2 (lvl - 1)) := by
    rw [hlv]
    exact incr_range' 1 (lvl - 1)
  exact runLevels_upgOK cards g (pyTitle arch) (List.range' 2 (lvl - 1)) ch n2 c n3
    hv hincr hup hrl

/-- A concrete character: level-10 Wizard (School of War) generation
under the all-zeros random outcome. -/
def sampleWizard10 : Character :=
  (createCharacter [] (fun _ => 0) 10 "Control" (some "Wizard")
    (some "School of War")).getD {}

/-- Witness for C7 at a concrete level-10 creation. -/
theorem C7_subclass_upgrade_gating_witness :
    ("Specialization" ∈ sampleWizard10.subclass_upgrades → 5 ≤ sampleWizard10.level) ∧
    ("Mastery" ∈ sampleWizard10.subclass_upgrades → 8 ≤ sampleWizard10.level) ∧
    sampleWizard10.subclass_upgrades.count "Specialization" ≤ 1 ∧
    sampleWizard10.subclass_upgrades.count "Mastery" ≤ 1 :=
  C7_subclass_upgrade_gating [] (fun _ => 0) 10 "Control" (some "Wizard")
    (some "School of War") sampleWizard10 rfl

/-- Claim C10: when a class is supplied without a subclass and the
archetype/class pair has no entry in `SUBCLASS_PREFERENCE`,
`create_character` deterministically takes the first subclass listed in
the class definition (for every random outcome), unlike the
uniform-random fallback inside `choose_class_and_subclass`. -/
theorem C10_first_subclass_fallback (cards : List DomainCard) (g : RandSrc)
    (lvl : Nat) (arch cls : String) (c : Character)
    (hpref : alookup SUBCLASS_PREFERENCE (pyTitle arch, cls) = none)
    (h : createCharacter cards g lvl arch (some cls) none = some c) :
    ∃ ci si, alookup CLASSES cls = some ci ∧
      alookup2 SUBCLASSES cls ci.subclasses.1 = some si ∧
      c.subclass = some si.name := by
  obtain ⟨cls2, si, n, ch, n2, n3, hsel, hbb, hrl⟩ :=
    createCharacter_inv cards g lvl arch (some cls) none c h
  simp only [Option.bind_eq_some] at hsel
  obtain ⟨pair, hp, heq⟩ := hsel
  rw [Option.some.injEq, Prod.mk.injEq] at heq
  obtain ⟨hpair, hn⟩ := heq
  simp only [selectForClass, hpref, Option.bind_eq_some] at hp
  obtain ⟨ci, hci, si0, hsi0, hpeq⟩ := hp
  rw [Option.some.injEq] at hpeq
  have hps : (cls, si0) = (cls2, si) := hpeq.trans hpair
  rw [Prod.mk.injEq] at hps
  obtain ⟨hcls2, hsi⟩ := hps
  obtain ⟨ci2, ts, hci2, hts, hcc, hsc, hlv, hpr, hug, htr⟩ :=
    buildBase_inv cards g (pyTitle arch) cls2 si n ch n2 hbb
  have hv : validClass ch :=
    ⟨ci2.name, ci2, hcc, by rw [CLASSES_name_eq_key cls2 ci2 hci2]; exact hci2⟩
  obtain ⟨c2, m2, hrl2, hc2c, hc2s, hc2p⟩ :=
    runLevels_spec cards g (pyTitle arch) (List.range' 2 (lvl - 1)) ch n2 hv
  have hcc2 : c2 = c := by
    rw [hrl2] at hrl
    exact (Prod.mk.injEq .. ▸ Option.some.injEq .. ▸ hrl).1
  refine ⟨ci, si0, hci, hsi0, ?_⟩
  rw [← hcc2, hc2s, hsc, ← hsi]

/-- A concrete character: a Tank-archetype Wizard (no preference entry
exists for that pair), created at level 1 under the all-zeros outcome. -/
def sampleTankWizard : Character :=
  (createCharacter [] (fun _ => 0) 1 "Tank" (some "Wizard") none).getD {}

/-- Witness for C10: the Tank/Wizard pair falls back to the first
Wizard subclass, School of Knowledge. -/
theorem C10_first_subclass_fallback_witness :
    ∃ ci si, alookup CLASSES "Wizard" = some ci ∧
      alookup2 SUBCLASSES "Wizard" ci.subclasses.1 = some si ∧
      sampleTankWizard.subclass = some si.name :=
  C10_first_subclass_fallback [] (fun _ => 0) 1 "Tank" "Wizard" sampleTankWizard
    rfl rfl

lemma rchoice_mem {α : Type} [Inhabited α] (g : RandSrc) (n : Nat) (xs : List α)
    (h : xs ≠ []) : (rchoice g n xs).1 ∈ xs := by
  simp only [rchoice]
  have hlt : g n % xs.length < xs.length := Nat.mod_lt _ (List.length_pos.2 h)
  rw [List.getD_eq_getElem?_getD, List.getElem?_eq_getElem hlt]
  exact List.getElem_mem hlt

lemma foldl_max_in_cons : ∀ (l : List Nat) (a : Nat), l.foldl max a ∈ a :: l := by
  intro l
  induction l with
  | nil => intro a; simp [List.foldl]
  | cons x t ih =>
    intro a
    show t.foldl max (max a x) ∈ a :: x :: t
    rcases List.mem_cons.1 (ih (max a x)) with hmem | hmem
    · rw [hmem]
      rcases max_choice a x with hax | hax <;> rw [hax]
      · exact List.mem_cons_self _ _
      · exact List.mem_cons_of_mem _ (List.mem_cons_self _ _)
    · exact List.mem_cons_of_mem _ (List.mem_cons_of_mem _ hmem)

lemma foldl_max_init_le : ∀ (l : List Nat) (a : Nat), a ≤ l.foldl max a := by
  intro l
  induction l with
  | nil => intro a; simp [List.foldl]
  | cons x t ih =>
    intro a
    exact le_trans (le_max_left a x) (ih (max a x))

lemma foldl_max_ge : ∀ (l : List Nat) (a x : Nat), x ∈ l → x ≤ l.foldl max a := by
  intro l
  induction l with
  | nil => intro a x hx; simp at hx
  | cons y t ih =>
    intro a x hx
    show x ≤ t.foldl max (max a y)
    rcases List.mem_cons.1 hx with hmem | hmem
    · subst hmem
      exact le_trans (le_max_right a x) (foldl_max_init_le t (max a x))
    · exact ih (max a y) x hmem

lemma max_score_attained (l : List Nat) (h : l ≠ []) : l.foldl max 0 ∈ l := by
  rcases List.mem_cons.1 (foldl_max_in_cons l 0) with hmem | hmem
  · obtain ⟨y, t, rfl⟩ := List.exists_cons_of_ne_nil h
    have hy : y ≤ (y :: t).foldl max 0 := foldl_max_ge _ 0 y (List.mem_cons_self y t)
    rw [hmem] at hy ⊢
    have hy0 : y = 0 := Nat.le_zero.1 hy
    rw [← hy0]
    exact List.mem_cons_self y t
  · exact hmem

lemma pickDomainCard_some_inv (cards : List DomainCard) (g : RandSrc) (n : Nat)
    (c : Character) (arch : String) (lvl : Nat) (name : String) (n2 : Nat)
    (ci : ClassInfo) (hcls : c.char_class = some ci.name)
    (hci : alookup CLASSES ci.name = some ci)
    (h : pickDomainCard cards g n c arch lvl = some (some name, n2)) :
    ∃ cd, cd ∈ cards ∧ cd.name = name ∧
      (cd.domain = ci.domains.1 ∨ cd.domain = ci.domains.2) ∧
      cd.level ≤ (lvl : Int) ∧ name ∉ c.domain_cards := by
  simp only [pickDomainCard, hcls, hci, Option.some_bind] at h
  split at h
  · simp at h
  next hne =>
    rw [Option.some.injEq, Prod.mk.injEq] at h
    obtain ⟨hname, _⟩ := h
    rw [Option.some.injEq] at hname
    set eligible := cards.filter (fun cd =>
      (cd.domain == ci.domains.1 || cd.domain == ci.domains.2)
      && decide (cd.level ≤ (lvl : Int))
      && !(c.domain_cards.contains cd.name)) with helig
    have heligne : eligible ≠ [] := by
      intro hnil
      exact hne (by rw [hnil]; rfl)
    set scored := eligible.map (fun card => (cardScore (pyTitle arch) card, card))
      with hscored
    have hscne : scored.map Prod.fst ≠ [] := by
      simp [hscored]
      exact heligne
    have hmax := max_score_attained (scored.map Prod.fst) hscne
    obtain ⟨sc, hscmem, hsceq⟩ := List.mem_map.1 hmax
    have hbestne : (scored.filter
        (fun p => p.1 == (scored.map Prod.fst).foldl max 0)).map Prod.snd ≠ [] := by
      have : sc ∈ scored.filter
          (fun p => p.1 == (scored.map Prod.fst).foldl max 0) := by
        rw [List.mem_filter]
        exact ⟨hscmem, by simp [hsceq]⟩
      intro hnil
      rw [List.map_eq_nil_iff] at hnil
      rw [hnil] at this
      simp at this
    have hchosen := rchoice_mem g n _ hbestne
    obtain ⟨q, hqmem, hqeq⟩ := List.mem_map.1 hchosen
    have hqs : q ∈ scored := (List.mem_filter.1 hqmem).1
    obtain ⟨card, hcardmem, hcardeq⟩ := List.mem_map.1 hqs
    have hq2 : q.2 = card := by rw [← hcardeq]
    have hcard_elig : card ∈ eligible := hcardmem
    rw [helig, List.mem_filter] at hcard_elig
    obtain ⟨hincards, hp⟩ := hcard_elig
    simp at hp
    refine ⟨card, hincards, ?_, hp.1.1, hp.1.2, ?_⟩
    · rw [← hname, ← hqeq, hq2]
    · rw [← hname, ← hqeq, hq2]
      exact hp.2

/-- The domain-card invariant: no duplicates, and every owned card name
comes from a compendium card of one of the class's two domains whose
level requirement is at most the character's (current) level. -/
def cardsOK (cards : List DomainCard) (ci : ClassInfo) (c : Character) : Prop :=
  c.domain_cards.Nodup ∧
  ∀ name ∈ c.domain_cards, ∃ cd, cd ∈ cards ∧ cd.name = name ∧
    (cd.domain = ci.domains.1 ∨ cd.domain = ci.domains.2) ∧ cd.level ≤ (c.level : Int)

lemma cardsOK_of_eq (cards : List DomainCard) (ci : ClassInfo) (c c2 : Character)
    (h : cardsOK cards ci c) (hdc : c2.domain_cards = c.domain_cards)
    (hl : c2.level = c.level) : cardsOK cards ci c2 := by
  obtain ⟨hnd, hall⟩ := h
  exact ⟨hdc ▸ hnd, by rw [hdc, hl]; exact hall⟩

lemma cardsOK_set_level (cards : List DomainCard) (ci : ClassInfo) (c : Character)
    (m : Nat) (h : cardsOK cards ci c) (hle : c.level ≤ m) :
    cardsOK cards ci { c with level := m } := by
  obtain ⟨hnd, hall⟩ := h
  refine ⟨hnd, fun name hmem => ?_⟩
  obtain ⟨cd, h1, h2, h3, h4⟩ := hall name hmem
  refine ⟨cd, h1, h2, h3, le_trans h4 ?_⟩
  exact_mod_cast hle

lemma cardsOK_addDomainCard (cards : List DomainCard) (ci : ClassInfo)
    (c : Character) (name : String) (hok : cardsOK cards ci c)
    (hcd : ∃ cd, cd ∈ cards ∧ cd.name = name ∧
      (cd.domain = ci.domains.1 ∨ cd.domain = ci.domains.2) ∧
      cd.level ≤ (c.level : Int)) :
    cardsOK cards ci (c.addDomainCard name) := by
  obtain ⟨hnd, hall⟩ := hok
  unfold Character.addDomainCard
  split
  · exact ⟨hnd, hall⟩
  next hnotin =>
    constructor
    · simp only []
      rw [List.nodup_append]
      exact ⟨hnd, List.nodup_singleton name, by simpa using hnotin⟩
    · intro nm hmem
      rcases List.mem_append.1 hmem with hmem2 | hmem2
      · exact hall nm hmem2
      · have : nm = name := by simpa using hmem2
        subst this
        exact hcd

lemma runAction_cardsOK (cards : List DomainCard) (g : RandSrc) (arch : String)
    (lvl : Nat) (act : AdvAction) (c : Character) (n : Nat) (c2 : Character) (n2 : Nat)
    (ci : ClassInfo) (hcls : c.char_class = some ci.name)
    (hci : alookup CLASSES ci.name = some ci) (hlvl : c.level = lvl)
    (hok : cardsOK cards ci c)
    (h : runAction cards g arch lvl act c n = some (c2, n2)) :
    cardsOK cards ci c2 ∧ c2.char_class = c.char_class ∧ c2.level = c.level := by
  cases act with
  | incTraits =>
    simp only [runAction, Option.some.injEq, Prod.mk.injEq] at h
    rw [← h.1]
    exact ⟨cardsOK_of_eq cards ci c _ hok (by simp) (by simp), by simp, by simp⟩
  | hpSlot =>
    simp only [runAction, Option.some.injEq, Prod.mk.injEq] at h
    rw [← h.1]
    exact ⟨cardsOK_of_eq cards ci c _ hok (by simp [addHpSlot]) (by simp [addHpSlot]),
      by simp [addHpSlot], by simp [addHpSlot]⟩
  | stressSlot =>
    simp only [runAction, Option.some.injEq, Prod.mk.injEq] at h
    rw [← h.1]
    exact ⟨cardsOK_of_eq cards ci c _ hok (by simp [addStressSlot]) (by simp [addStressSlot]),
      by simp [addStressSlot], by simp [addStressSlot]⟩
  | experience =>
    simp only [runAction, Option.some.injEq, Prod.mk.injEq] at h
    rw [← h.1]
    exact ⟨cardsOK_of_eq cards ci c _ hok (by simp [addExperienceAct])
      (by simp [addExperienceAct]), by simp [addExperienceAct], by simp [addExperienceAct]⟩
  | evasionUp =>
    simp only [runAction, Option.some.injEq, Prod.mk.injEq] at h
    rw [← h.1]
    exact ⟨cardsOK_of_eq cards ci c _ hok (by simp [addEvasionAct]) (by simp [addEvasionAct]),
      by simp [addEvasionAct], by simp [addEvasionAct]⟩
  | domainCardAdv =>
    simp only [runAction, addDomainCardAdv, Option.bind_eq_some] at h
    obtain ⟨rn, hpick, hmatch⟩ := h
    obtain ⟨r, m⟩ := rn
    by_cases ht : truthyStr r = true
    · rw [if_pos ht] at hmatch
      simp only [Option.some.injEq, Prod.mk.injEq] at hmatch
      rw [← hmatch.1]
      cases r with
      | none => simp [truthyStr] at ht
      | some card =>
        have hcd := pickDomainCard_some_inv cards g n c arch lvl card m ci hcls hci hpick
        obtain ⟨cd, h1, h2, h3, h4, h5⟩ := hcd
        have hok2 : cardsOK cards ci (c.addDomainCard ((some card).getD "")) := by
          refine cardsOK_addDomainCard cards ci c card hok ⟨cd, h1, h2, h3, ?_⟩
          rw [hlvl]
          exact h4
        exact ⟨cardsOK_of_eq cards ci _ _ hok2 (by simp) (by simp), by simp, by simp⟩
    · rw [if_neg ht] at hmatch
      simp only [Option.some.injEq, Prod.mk.injEq] at hmatch
      rw [← hmatch.1]
      exact ⟨hok, rfl, rfl⟩

lemma runActions_cardsOK (cards : List DomainCard) (g : RandSrc) (arch : String)
    (lvl : Nat) : ∀ (acts : List AdvAction) (c : Character) (n : Nat)
    (c2 : Character) (n2 : Nat) (ci : ClassInfo),
    c.char_class = some ci.name → alookup CLASSES ci.name = some ci →
    c.level = lvl → cardsOK cards ci c →
    runActions cards g arch lvl acts c n = some (c2, n2) →
    cardsOK cards ci c2 ∧ c2.char_class = c.char_class ∧ c2.level = c.level := by
  intro acts
  induction acts with
  | nil =>
    intro c n c2 n2 ci _ _ _ hok h
    simp only [runActions, Option.some.injEq, Prod.mk.injEq] at h
    rw [← h.1]
    exact ⟨hok, rfl, rfl⟩
  | cons act rest ih =>
    intro c n c2 n2 ci hcls hci hlvl hok h
    simp only [runActions, Option.bind_eq_some] at h
    obtain ⟨p, hp, hrest⟩ := h
    obtain ⟨hok1, hcls1, hlvl1⟩ :=
      runAction_cardsOK cards g arch lvl act c n p.1 p.2 ci hcls hci hlvl hok hp
    obtain ⟨hok2, hcls2, hlvl2⟩ := ih p.1 p.2 c2 n2 ci (by rw [hcls1]; exact hcls) hci
      (by rw [hlvl1]; exact hlvl) hok1 hrest
    exact ⟨hok2, by rw [hcls2, hcls1], by rw [hlvl2, hlvl1]⟩

lemma performAdvancements_cardsOK (cards : List DomainCard) (g : RandSrc) (n : Nat)
    (c : Character) (arch : String) (lvl : Nat) (c2 : Character) (n2 : Nat)
    (ci : ClassInfo) (hcls : c.char_class = some ci.name)
    (hci : alookup CLASSES ci.name = some ci) (hlvl : c.level = lvl)
    (hok : cardsOK cards ci c)
    (h : performAdvancements cards g n c arch lvl = some (c2, n2)) :
    cardsOK cards ci c2 ∧ c2.char_class = c.char_class ∧ c2.level = c.level := by
  simp only [performAdvancements] at h
  have hok1 : cardsOK cards ci (takeSubclassUpgrade c lvl) :=
    cardsOK_of_eq cards ci c _ hok (by simp) (by simp)
  obtain ⟨hok2, hcls2, hlvl2⟩ := runActions_cardsOK cards g arch lvl
    (sample2 g n (actionMenu (pyTitle arch))).1 (takeSubclassUpgrade c lvl)
    (sample2 g n (actionMenu (pyTitle arch))).2 c2 n2 ci (by simp [hcls]) hci
    (by simp [hlvl]) hok1 h
  exact ⟨hok2, by rw [hcls2]; simp, by rw [hlvl2]; simp⟩

lemma levelUp_cardsOK (cards : List DomainCard) (g : RandSrc) (n : Nat)
    (c : Character) (arch : String) (lvl : Nat) (c2 : Character) (n2 : Nat)
    (ci : ClassInfo) (hcls : c.char_class = some ci.name)
    (hci : alookup CLASSES ci.name = some ci) (hlvl : c.level = lvl)
    (hok : cardsOK cards ci c)
    (h : levelUp cards g n c arch lvl = some (c2, n2)) :
    cardsOK cards ci c2 ∧ c2.char_class = c.char_class ∧ c2.level = c.level := by
  simp only [levelUp, Option.bind_eq_some] at h
  obtain ⟨p, hperf, rn, hpick, hmatch⟩ := h
  have hokt : cardsOK cards ci (applyTierAchievements c lvl) :=
    cardsOK_of_eq cards ci c _ hok (by simp) (by simp)
  obtain ⟨hok1, hcls1, hlvl1⟩ := performAdvancements_cardsOK cards g n
    (applyTierAchievements c lvl) arch lvl p.1 p.2 ci (by simp [hcls]) hci
    (by simp [hlvl]) hokt hperf
  simp only [applyTierAchievements_char_class, applyTierAchievements_level] at hcls1 hlvl1
  set cmid := Character.addAdvance { p.1 with hp := p.1.hp + 1 } lvl
    "Damage thresholds increased (+1 HP)" with hcmid
  have hokm : cardsOK cards ci cmid :=
    cardsOK_of_eq cards ci p.1 cmid hok1 (by simp [hcmid]) (by simp [hcmid])
  have hclsm : cmid.char_class = some ci.name := by
    simp only [hcmid, addAdvance_char_class]
    show p.1.char_class = some ci.name
    rw [hcls1]
    exact hcls
  have hlvlm : cmid.level = lvl := by
    simp only [hcmid, addAdvance_level]
    show p.1.level = lvl
    rw [hlvl1]
    exact hlvl
  obtain ⟨r, m⟩ := rn
  by_cases ht : truthyStr r = true
  · rw [if_pos ht] at hmatch
    simp only [Option.some.injEq, Prod.mk.injEq] at hmatch
    rw [← hmatch.1]
    cases r with
    | none => simp [truthyStr] at ht
    | some card =>
      have hcd := pickDomainCard_some_inv cards g p.2 cmid arch lvl card m ci hclsm hci hpick
      obtain ⟨cd, h1, h2, h3, h4, h5⟩ := hcd
      have hok3 : cardsOK cards ci (cmid.addDomainCard ((some card).getD "")) := by
        refine cardsOK_addDomainCard cards ci cmid card hokm ⟨cd, h1, h2, h3, ?_⟩
        rw [hlvlm]
        exact h4
      refine ⟨cardsOK_of_eq cards ci _ _ hok3 (by simp) (by simp), ?_, ?_⟩
      · simp only [addAdvance_char_class, addDomainCard_char_class]
        rw [hclsm, hcls]
      · simp only [addAdvance_level, addDomainCard_level]
        rw [hlvlm, hlvl]
  · rw [if_neg ht] at hmatch
    simp only [Option.some.injEq, Prod.mk.injEq] at hmatch
    rw [← hmatch.1]
    refine ⟨hokm, ?_, ?_⟩
    · rw [hclsm, hcls]
    · rw [hlvlm, hlvl]

lemma runLevels_cardsOK (cards : List DomainCard) (g : RandSrc) (arch : String) :
    ∀ (ls : List Nat) (c : Character) (n : Nat) (c2 : Character) (n2 : Nat)
    (ci : ClassInfo), c.char_class = some ci.name → alookup CLASSES ci.name = some ci →
    incr c.level ls → cardsOK cards ci c →
    runLevels cards g arch ls c n = some (c2, n2) →
    cardsOK cards ci c2 ∧ c2.char_class = c.char_class := by
  intro ls
  induction ls with
  | nil =>
    intro c n c2 n2 ci _ _ _ hok h
    simp only [runLevels, Option.some.injEq, Prod.mk.injEq] at h
    rw [← h.1]
    exact ⟨hok, rfl⟩
  | cons lvl rest ih =>
    intro c n c2 n2 ci hcls hci hincr hok h
    obtain ⟨hle, hincr2⟩ := hincr
    simp only [runLevels, Option.bind_eq_some] at h
    obtain ⟨p, hlu, hrest⟩ := h
    have hok0 : cardsOK cards ci { c with level := lvl } :=
      cardsOK_set_level cards ci c lvl hok hle
    obtain ⟨hok1, hcls1, hlvl1⟩ := levelUp_cardsOK cards g n { c with level := lvl }
      arch lvl p.1 p.2 ci hcls hci rfl hok0 hlu
    obtain ⟨hok2, hcls2⟩ := ih p.1 p.2 c2 n2 ci (by rw [hcls1]; exact hcls) hci
      (by rw [hlvl1]; exact hincr2) hok1 hrest
    exact ⟨hok2, by rw [hcls2, hcls1]⟩

lemma buildBase_cardsOK (cards : List DomainCard) (g : RandSrc) (archt cls : String)
    (si : Subclass) (n : Nat) (ch : Character) (n2 : Nat)
    (h : buildBase cards g archt cls si n = some (ch, n2)) :
    ∃ ci, alookup CLASSES cls = some ci ∧ cardsOK cards ci ch := by
  simp only [buildBase, Option.bind_eq_some] at h
  obtain ⟨ci, hci, ts, hts, exps, hexp, r1, hp1, r2, hp2, hsome⟩ := h
  rw [Option.some.injEq, Prod.mk.injEq] at hsome
  obtain ⟨hch, hn⟩ := hsome
  subst hch
  have hciname : alookup CLASSES ci.name = some ci := by
    rw [CLASSES_name_eq_key cls ci hci]
    exact hci
  refine ⟨ci, hci, ?_⟩
  have hok0 : cardsOK cards ci (initChar archt ci si (selectHeritage g n).1 ts exps) :=
    ⟨List.nodup_nil, by simp [initChar]⟩
  have hok1 : cardsOK cards ci
      (if truthyStr r1.1 = true then
        Character.addDomainCard (initChar archt ci si (selectHeritage g n).1 ts exps)
          (r1.1.getD "")
      else initChar archt ci si (selectHeritage g n).1 ts exps) := by
    by_cases ht1 : truthyStr r1.1 = true
    · rw [if_pos ht1]
      cases hr1 : r1.1 with
      | none => rw [hr1] at ht1; simp [truthyStr] at ht1
      | some card =>
        have hr1eq : r1 = (some card, r1.2) := by rw [← hr1]
        rw [hr1eq] at hp1
        obtain ⟨cd, h1, h2, h3, h4, h5⟩ := pickDomainCard_some_inv cards g
          (selectHeritage g n).2 _ archt 1 card r1.2 ci rfl hciname hp1
        exact cardsOK_addDomainCard cards ci _ card hok0 ⟨cd, h1, h2, h3, h4⟩
    · rw [if_neg ht1]
      exact hok0
  by_cases ht2 : truthyStr r2.1 = true
  · rw [if_pos ht2]
    cases hr2 : r2.1 with
    | none => rw [hr2] at ht2; simp [truthyStr] at ht2
    | some card2 =>
      have hr2eq : r2 = (some card2, r2.2) := by rw [← hr2]
      rw [hr2eq] at hp2
      have hcls1 : (if truthyStr r1.1 = true then
          Character.addDomainCard (initChar archt ci si (selectHeritage g n).1 ts exps)
            (r1.1.getD "")
        else initChar archt ci si (selectHeritage g n).1 ts exps).char_class
          = some ci.name := by
        by_cases ht1 : truthyStr r1.1 = true
        · rw [if_pos ht1]
          simp [initChar]
        · rw [if_neg ht1]
          rfl
      have hlvl1 : (if truthyStr r1.1 = true then
          Character.addDomainCard (initChar archt ci si (selectHeritage g n).1 ts exps)
            (r1.1.getD "")
        else initChar archt ci si (selectHeritage g n).1 ts exps).level = 1 := by
        by_cases ht1 : truthyStr r1.1 = true
        · rw [if_pos ht1]
          simp [initChar]
        · rw [if_neg ht1]
          rfl
      obtain ⟨cd, h1, h2, h3, h4, h5⟩ := pickDomainCard_some_inv cards g r1.2 _ archt 1
        card2 r2.2 ci hcls1 hciname hp2
      refine cardsOK_addDomainCard cards ci _ card2 hok1 ⟨cd, h1, h2, h3, ?_⟩
      rw [hlvl1]
      exact h4
  · rw [if_neg ht2]
    exact hok1

lemma runLevels_append (cards : List DomainCard) (g : RandSrc) (arch : String) :
    ∀ (l1 l2 : List Nat) (c : Character) (n : Nat),
    runLevels cards g arch (l1 ++ l2) c n
      = (runLevels cards g arch l1 c n).bind fun p => runLevels cards g arch l2 p.1 p.2 := by
  intro l1
  induction l1 with
  | nil => intro l2 c n; simp [runLevels]
  | cons lvl rest ih =>
    intro l2 c n
    simp only [List.cons_append, runLevels]
    cases levelUp cards g n { c with level := lvl } arch lvl with
    | none => rfl
    | some p =>
      simp only [Option.some_bind]
      exact ih l2 p.1 p.2

lemma getLastD_range'_succ : ∀ (m s d : Nat), (List.range' s (m + 1)).getLastD d = s + m := by
  intro m
  induction m with
  | zero => intro s d; rfl
  | succ m ih =>
    intro s d
    rw [List.range'_succ, List.getLastD_cons, ih (s + 1) s]
    omega

lemma addDomainCard_mem_mono (c : Character) (x name : String)
    (h : name ∈ c.domain_cards) : name ∈ (c.addDomainCard x).domain_cards := by
  rw [addDomainCard_domain_cards]
  split
  · exact h
  · exact List.mem_append_left _ h

lemma runAction_mono (cards : List DomainCard) (g : RandSrc) (arch : String)
    (lvl : Nat) (act : AdvAction) (c : Character) (n : Nat) (c2 : Character) (n2 : Nat)
    (h : runAction cards g arch lvl act c n = some (c2, n2)) :
    c2.level = c.level ∧ ∀ name ∈ c.domain_cards, name ∈ c2.domain_cards := by
  cases act with
  | incTraits =>
    simp only [runAction, Option.some.injEq, Prod.mk.injEq] at h
    rw [← h.1]
    exact ⟨by simp, fun name hname => by simpa using hname⟩
  | hpSlot =>
    simp only [runAction, Option.some.injEq, Prod.mk.injEq] at h
    rw [← h.1]
    exact ⟨by simp [addHpSlot], fun name hname => by simpa [addHpSlot] using hname⟩
  | stressSlot =>
    simp only [runAction, Option.some.injEq, Prod.mk.injEq] at h
    rw [← h.1]
    exact ⟨by simp [addStressSlot], fun name hname => by simpa [addStressSlot] using hname⟩
  | experience =>
    simp only [runAction, Option.some.injEq, Prod.mk.injEq] at h
    rw [← h.1]
    exact ⟨by simp [addExperienceAct], fun name hname => by simpa [addExperienceAct] using hname⟩
  | evasionUp =>
    simp only [runAction, Option.some.injEq, Prod.mk.injEq] at h
    rw [← h.1]
    exact ⟨by simp [addEvasionAct], fun name hname => by simpa [addEvasionAct] using hname⟩
  | domainCardAdv =>
    simp only [runAction, addDomainCardAdv, Option.bind_eq_some] at h
    obtain ⟨rn, hrn, hmatch⟩ := h
    by_cases ht : truthyStr rn.1 = true
    · rw [if_pos ht] at hmatch
      rw [Option.some.injEq, Prod.mk.injEq] at hmatch
      rw [← hmatch.1]
      refine ⟨by simp, fun name hname => ?_⟩
      simp only [addAdvance_domain_cards]
      exact addDomainCard_mem_mono c (rn.1.getD "") name hname
    · rw [if_neg ht] at hmatch
      rw [Option.some.injEq, Prod.mk.injEq] at hmatch
      rw [← hmatch.1]
      exact ⟨rfl, fun name hname => hname⟩

lemma runActions_mono (cards : List DomainCard) (g : RandSrc) (arch : String)
    (lvl : Nat) : ∀ (acts : List AdvAction) (c : Character) (n : Nat)
    (c2 : Character) (n2 : Nat),
    runActions cards g arch lvl acts c n = some (c2, n2) →
    c2.level = c.level ∧ ∀ name ∈ c.domain_cards, name ∈ c2.domain_cards := by
  intro acts
  induction acts with
  | nil =>
    intro c n c2 n2 h
    simp only [runActions, Option.some.injEq, Prod.mk.injEq] at h
    rw [← h.1]
    exact ⟨rfl, fun name hname => hname⟩
  | cons act rest ih =>
    intro c n c2 n2 h
    simp only [runActions, Option.bind_eq_some] at h
    obtain ⟨p, hp, hrest⟩ := h
    obtain ⟨hl1, hm1⟩ := runAction_mono cards g arch lvl act c n p.1 p.2 (by rw [hp])
    obtain ⟨hl2, hm2⟩ := ih p.1 p.2 c2 n2 hrest
    exact ⟨by rw [hl2, hl1], fun name hname => hm2 name (hm1 name hname)⟩

lemma performAdvancements_mono (cards : List DomainCard) (g : RandSrc) (n : Nat)
    (c : Character) (arch : String) (lvl : Nat) (c2 : Character) (n2 : Nat)
    (h : performAdvancements cards g n c arch lvl = some (c2, n2)) :
    c2.level = c.level ∧ ∀ name ∈ c.domain_cards, name ∈ c2.domain_cards := by
  simp only [performAdvancements] at h
  obtain ⟨hl, hm⟩ := runActions_mono cards g arch lvl
    (sample2 g n (actionMenu (pyTitle arch))).1 (takeSubclassUpgrade c lvl)
    (sample2 g n (actionMenu (pyTitle arch))).2 c2 n2 h
  exact ⟨by rw [hl]; simp, fun name hname => hm name (by simpa using hname)⟩

lemma levelUp_mono (cards : List DomainCard) (g : RandSrc) (n : Nat) (c : Character)
    (arch : String) (lvl : Nat) (c2 : Character) (n2 : Nat)
    (h : levelUp cards g n c arch lvl = some (c2, n2)) :
    c2.level = c.level ∧ ∀ name ∈ c.domain_cards, name ∈ c2.domain_cards := by
  simp only [levelUp, Option.bind_eq_some] at h
  obtain ⟨p, hpa, rn, hpick, hmatch⟩ := h
  obtain ⟨hl1, hm1⟩ := performAdvancements_mono cards g n (applyTierAchievements c lvl)
    arch lvl p.1 p.2 (by rw [hpa])
  have hl1b : p.1.level = c.level := by rw [hl1]; simp
  have hm1b : ∀ name ∈ c.domain_cards, name ∈ p.1.domain_cards := fun name hname =>
    hm1 name (by simpa using hname)
  by_cases ht : truthyStr rn.1 = true
  · rw [if_pos ht] at hmatch
    rw [Option.some.injEq, Prod.mk.injEq] at hmatch
    rw [← hmatch.1]
    refine ⟨by simp [hl1b], fun name hname => ?_⟩
    simp only [addAdvance_domain_cards]
    refine addDomainCard_mem_mono _ (rn.1.getD "") name ?_
    simpa using hm1b name hname
  · rw [if_neg ht] at hmatch
    rw [Option.some.injEq, Prod.mk.injEq] at hmatch
    rw [← hmatch.1]
    exact ⟨by simp [hl1b], fun name hname => by simpa using hm1b name hname⟩

lemma runLevels_mono (cards : List DomainCard) (g : RandSrc) (arch : String) :
    ∀ (ls : List Nat) (c : Character) (n : Nat) (c2 : Character) (n2 : Nat),
    runLevels cards g arch ls c n = some (c2, n2) →
    c2.level = ls.getLastD c.level ∧ ∀ name ∈ c.domain_cards, name ∈ c2.domain_cards := by
  intro ls
  induction ls with
  | nil =>
    intro c n c2 n2 h
    simp only [runLevels, Option.some.injEq, Prod.mk.injEq] at h
    rw [← h.1]
    exact ⟨rfl, fun name hname => hname⟩
  | cons lvl rest ih =>
    intro c n c2 n2 h
    simp only [runLevels, Option.bind_eq_some] at h
    obtain ⟨p, hlu, hrest⟩ := h
    obtain ⟨hl1, hm1⟩ := levelUp_mono cards g n { c with level := lvl } arch lvl p.1 p.2
      (by rw [hlu])
    have hl1b : p.1.level = lvl := hl1
    obtain ⟨hl2, hm2⟩ := ih p.1 p.2 c2 n2 hrest
    refine ⟨?_, fun name hname => hm2 name (hm1 name hname)⟩
    rw [List.getLastD_cons, hl2, hl1b]

/-- Claim C6: for every generated character, `domain_cards` has no
duplicates, and every owned card name has a well-defined acquisition
level `k`: the first creation stage (running `create_character` to
target level `k`, a deterministic prefix of the full run) whose
character owns the card; the card persists through every later stage,
it denotes a compendium card from one of the class's two domains, and
its level requirement is at most `k` — the character's level at the
moment of acquisition. -/
theorem C6_domain_cards_valid (cards : List DomainCard) (g : RandSrc) (lvl : Nat) (arch : String)
    (cn sn : Option String) (c : Character)
    (h : createCharacter cards g lvl arch cn sn = some c) :
    c.domain_cards.Nodup ∧
    ∀ name ∈ c.domain_cards, ∃ k ck cls ci cd,
      1 ≤ k ∧ k ≤ lvl ∧
      createCharacter cards g k arch cn sn = some ck ∧ ck.level = k ∧
      name ∈ ck.domain_cards ∧
      (∀ j cj, j < k → createCharacter cards g j arch cn sn = some cj →
        name ∉ cj.domain_cards) ∧
      (∀ j cj, k ≤ j → j ≤ lvl → createCharacter cards g j arch cn sn = some cj →
        name ∈ cj.domain_cards) ∧
      c.char_class = some cls ∧ alookup CLASSES cls = some ci ∧
      cd ∈ cards ∧ cd.name = name ∧
      (cd.domain = ci.domains.1 ∨ cd.domain = ci.domains.2) ∧
      cd.level ≤ (k : Int) := by
  classical
  have hguard : 1 ≤ lvl ∧ lvl ≤ 10 := by
    by_contra hg
    simp only [createCharacter, if_neg hg] at h
    exact Option.noConfusion h
  obtain ⟨cls, si, n, ch, n2, n3, hsel, hbb, hrl⟩ :=
    createCharacter_inv cards g lvl arch cn sn c h
  obtain ⟨ci, hci, hok⟩ := buildBase_cardsOK cards g (pyTitle arch) cls si n ch n2 hbb
  obtain ⟨ci2, ts, hci2, hts, hcc, hsc, hlv, hpr, hug, htr⟩ :=
    buildBase_inv cards g (pyTitle arch) cls si n ch n2 hbb
  have hcieq : ci2 = ci := by
    rw [hci] at hci2
    exact (Option.some.injEq .. ▸ hci2).symm
  have hcc2 : ch.char_class = some ci.name := by rw [hcc, hcieq]
  have hciname : alookup CLASSES ci.name = some ci := by
    rw [CLASSES_name_eq_key cls ci hci]
    exact hci
  have hincr : incr ch.level (List.range' 2 (lvl - 1)) := by
    rw [hlv]
    exact incr_range' 1 (lvl - 1)
  obtain ⟨hokc, hclsc⟩ := runLevels_cardsOK cards g (pyTitle arch)
    (List.range' 2 (lvl - 1)) ch n2 c n3 ci hcc2 hciname hincr hok hrl
  have hstage : ∀ j, 1 ≤ j → j ≤ 10 → createCharacter cards g j arch cn sn
      = (runLevels cards g (pyTitle arch) (List.range' 2 (j - 1)) ch n2).bind
          fun r => some r.1 := by
    intro j h1 h10
    cases cn with
    | none =>
      have hsel2 : chooseClassAndSubclass g 0 (pyTitle arch) = some ((cls, si), n) := hsel
      simp only [createCharacter]
      rw [if_pos (And.intro h1 h10), hsel2]
      simp only [Option.some_bind]
      rw [hbb]
      simp only [Option.some_bind]
    | some cls0 =>
      have hsel2 : (selectForClass (pyTitle arch) cls0 sn).bind
          (fun pair => some (pair, 0)) = some ((cls, si), n) := hsel
      simp only [createCharacter]
      rw [if_pos (And.intro h1 h10), hsel2]
      simp only [Option.some_bind]
      rw [hbb]
      simp only [Option.some_bind]
  refine ⟨hokc.1, fun name hmem => ?_⟩
  have hQex : ∃ m, ∃ p, runLevels cards g (pyTitle arch) (List.range' 2 m) ch n2 = some p ∧
      name ∈ p.1.domain_cards := ⟨lvl - 1, (c, n3), hrl, hmem⟩
  obtain ⟨km, ⟨pk, hFk, hnamek⟩, hkmle, hmin⟩ :
      ∃ km, (∃ p, runLevels cards g (pyTitle arch) (List.range' 2 km) ch n2 = some p ∧
        name ∈ p.1.domain_cards) ∧ km ≤ lvl - 1 ∧
        ∀ j, j < km → ¬ (∃ p, runLevels cards g (pyTitle arch) (List.range' 2 j) ch n2
          = some p ∧ name ∈ p.1.domain_cards) :=
    ⟨Nat.find hQex, Nat.find_spec hQex, Nat.find_min' hQex ⟨(c, n3), hrl, hmem⟩,
      fun j hj => Nat.find_min hQex hj⟩
  have hincrk : incr ch.level (List.range' 2 km) := by
    rw [hlv]
    exact incr_range' 1 km
  obtain ⟨hokk, hclsk⟩ := runLevels_cardsOK cards g (pyTitle arch)
    (List.range' 2 km) ch n2 pk.1 pk.2 ci hcc2 hciname hincrk hok (by rw [hFk])
  have hlevelk : pk.1.level = km + 1 := by
    have hlvlp := (runLevels_mono cards g (pyTitle arch) (List.range' 2 km) ch n2
      pk.1 pk.2 (by rw [hFk])).1
    cases km with
    | zero => simpa [hlv] using hlvlp
    | succ m =>
      rw [getLastD_range'_succ m 2 ch.level] at hlvlp
      omega
  have hck : createCharacter cards g (km + 1) arch cn sn = some pk.1 := by
    rw [hstage (km + 1) (by omega) (by omega)]
    simp only [Nat.add_sub_cancel]
    rw [hFk]
    simp only [Option.some_bind]
  have hmin2 : ∀ j cj, j < km + 1 → createCharacter cards g j arch cn sn = some cj →
      name ∉ cj.domain_cards := by
    intro j cj hjlt hcj hnamej
    cases j with
    | zero =>
      simp only [createCharacter] at hcj
      rw [if_neg (by omega)] at hcj
      exact Option.noConfusion hcj
    | succ jm =>
      rw [hstage (jm + 1) (by omega) (by omega)] at hcj
      simp only [Nat.add_sub_cancel, Option.bind_eq_some] at hcj
      obtain ⟨r, hr, hr2⟩ := hcj
      rw [Option.some.injEq] at hr2
      exact hmin jm (by omega) ⟨r, hr, by rw [hr2]; exact hnamej⟩
  have hpersist : ∀ j cj, km + 1 ≤ j → j ≤ lvl →
      createCharacter cards g j arch cn sn = some cj → name ∈ cj.domain_cards := by
    intro j cj hjge hjle hcj
    rw [hstage j (by omega) (by omega)] at hcj
    have hsplit : List.range' 2 (j - 1) = List.range' 2 km
        ++ List.range' (2 + km) (j - 1 - km) := by
      rw [List.range'_append_1]
      congr 1
      omega
    rw [hsplit, runLevels_append, hFk] at hcj
    simp only [Option.some_bind, Option.bind_eq_some] at hcj
    obtain ⟨r, hr, hr2⟩ := hcj
    rw [Option.some.injEq] at hr2
    have hmem2 := (runLevels_mono cards g (pyTitle arch)
      (List.range' (2 + km) (j - 1 - km)) pk.1 pk.2 r.1 r.2 (by rw [hr])).2 name hnamek
    rw [← hr2]
    exact hmem2
  obtain ⟨cd, hcd1, hcd2, hcd3, hcd4⟩ := hokk.2 name hnamek
  refine ⟨km + 1, pk.1, ci.name, ci, cd, by omega, by omega, hck, hlevelk, hnamek, hmin2,
    hpersist, by rw [hclsc]; exact hcc2, hciname, hcd1, hcd2, hcd3, ?_⟩
  rw [hlevelk] at hcd4
  exact hcd4

/-- A small concrete compendium for the C6 witness. -/
def sampleCards : List DomainCard := [
  ⟨"CardA", "Valor", 1, "Ability", 0, "gain armor"⟩,
  ⟨"CardB", "Blade", 1, "Ability", 0, "attack damage damage"⟩,
  ⟨"CardC", "Blade", 3, "Ability", 0, "shield hp"⟩,
  ⟨"CardD", "Grace", 1, "Ability", 0, "charm"⟩]

/-- A concrete character: level-4 Tank generated against `sampleCards`
under the all-zeros random outcome (it acquires three cards). -/
def sampleGuardian4 : Character :=
  (createCharacter sampleCards (fun _ => 0) 4 "Tank" none none).getD {}

/-- Witness for C6 at a concrete creation with a concrete compendium. -/
theorem C6_domain_cards_valid_witness :
    sampleGuardian4.domain_cards.Nodup ∧
    ∀ name ∈ sampleGuardian4.domain_cards, ∃ k ck cls ci cd,
      1 ≤ k ∧ k ≤ 4 ∧
      createCharacter sampleCards (fun _ => 0) k "Tank" none none = some ck ∧
      ck.level = k ∧ name ∈ ck.domain_cards ∧
      (∀ j cj, j < k →
        createCharacter sampleCards (fun _ => 0) j "Tank" none none = some cj →
        name ∉ cj.domain_cards) ∧
      (∀ j cj, k ≤ j → j ≤ 4 →
        createCharacter sampleCards (fun _ => 0) j "Tank" none none = some cj →
        name ∈ cj.domain_cards) ∧
      sampleGuardian4.char_class = some cls ∧
      alookup CLASSES cls = some ci ∧ cd ∈ sampleCards ∧ cd.name = name ∧
      (cd.domain = ci.domains.1 ∨ cd.domain = ci.domains.2) ∧
      cd.level ≤ (k : Int) :=
  C6_domain_cards_valid sampleCards (fun _ => 0) 4 "Tank" none none sampleGuardian4 rfl
